import Mathlib

/-!
# Verification of the sylt-2d 2D physics engine core

A shallow embedding of the Rust sources of `sylt-2d` (src/math_utils.rs,
src/body.rs, src/collide.rs, src/collide_polygon.rs, src/arbiter.rs,
src/joint.rs, src/world.rs) into Lean 4, over the real numbers.

Modelling conventions:
* Rust `f32` values are modelled as real numbers (`ℝ`); `f32::cos`/`f32::sin`
  are modelled by `Real.cos`/`Real.sin`.  Floating-point rounding, `NaN` and
  signed zero are outside the model.
* A Rust function that can abort the process (a failed `assert!`, an
  out-of-order `RefCell::swap`/`borrow_mut` conflict) is modelled as
  returning `RustResult α`, whose `panicked` constructor carries the abort
  message.  The `ok` constructor is a normal return.  Note that the Rust
  return types themselves carry no error: a `panicked` outcome models a
  process abort, not a recoverable, typed error value.
* Shared mutable bodies (`Rc<RefCell<Body>>` in the source) are modelled by
  storing bodies in a list owned by the world and referring to them by
  index; every mutation is an explicit list update.
* Rust `Vec` push sequences are modelled as Lean lists in push order.
-/

noncomputable section

/-- Outcome of running a piece of Rust code: either a normal return or a
process abort carrying the panic message (e.g. a failed `assert!`). -/
inductive RustResult (α : Type) where
  | ok : α → RustResult α
  | panicked : String → RustResult α
deriving DecidableEq

namespace RustResult

def bind {α β : Type} : RustResult α → (α → RustResult β) → RustResult β
  | ok a, f => f a
  | panicked msg, _ => panicked msg

instance : Monad RustResult where
  pure := ok
  bind := bind

end RustResult

/-- `f32::MAX`, the sentinel the engine uses for "infinite" mass. -/
def f32Max : ℝ := (2 - 2 ^ (-(23 : ℤ))) * 2 ^ (127 : ℕ)

/-- `f32::MIN` (`= -f32::MAX`). -/
def f32Min : ℝ := -f32Max

/-- Rust `f32::signum` (on non-NaN, non-negative-zero inputs): `1.0` for
`x >= 0`, `-1.0` for `x < 0`. -/
def rustSignum (x : ℝ) : ℝ := if x < 0 then -1 else 1

/-- `Vec2` from src/math_utils.rs: an (x, y) pair of `f32`. -/
structure Vec2 where
  x : ℝ
  y : ℝ
deriving DecidableEq

namespace Vec2

/-- `Vec2::new`. -/
def new (x y : ℝ) : Vec2 := ⟨x, y⟩

/-- `Vec2::length`: Euclidean norm. -/
def length (v : Vec2) : ℝ := Real.sqrt (v.x * v.x + v.y * v.y)

/-- `Vec2::dot`. -/
def dot (v w : Vec2) : ℝ := v.x * w.x + v.y * w.y

/-- `Vec2::abs`: componentwise absolute value. -/
def abs (v : Vec2) : Vec2 := ⟨|v.x|, |v.y|⟩

/-- `impl Add for Vec2`. -/
instance : Add Vec2 := ⟨fun v w => ⟨v.x + w.x, v.y + w.y⟩⟩

/-- `impl Sub for Vec2`. -/
instance : Sub Vec2 := ⟨fun v w => ⟨v.x - w.x, v.y - w.y⟩⟩

/-- `impl Neg for Vec2`. -/
instance : Neg Vec2 := ⟨fun v => ⟨-v.x, -v.y⟩⟩

/-- `impl Mul<f32> for Vec2`: scaling. -/
instance : HMul Vec2 ℝ Vec2 := ⟨fun v s => ⟨v.x * s, v.y * s⟩⟩

/-- `impl Cross<Vec2> for Vec2`: 2D cross product, a scalar. -/
def cross (v w : Vec2) : ℝ := v.x * w.y - v.y * w.x

/-- `impl Cross<f32> for Vec2`: vector × scalar. -/
def crossScalar (v : Vec2) (s : ℝ) : Vec2 := ⟨v.y * s, v.x * -s⟩

/-- `impl Cross<Vec2> for f32`: scalar × vector. -/
def scalarCross (s : ℝ) (v : Vec2) : Vec2 := ⟨-s * v.y, s * v.x⟩

/-- `Vec2::default()`: the zero vector. -/
def default : Vec2 := ⟨0, 0⟩

end Vec2

/-- `Mat2x2` from src/math_utils.rs: a 2×2 matrix stored as two columns. -/
structure Mat2x2 where
  col1 : Vec2
  col2 : Vec2
deriving DecidableEq

namespace Mat2x2

/-- `Mat2x2::new_from_angle`: the source sets `col1 = (cos θ, -sin θ)` and
`col2 = (sin θ, cos θ)`. -/
def newFromAngle (angle : ℝ) : Mat2x2 :=
  let c := Real.cos angle
  let s := Real.sin angle
  ⟨Vec2.new c (-s), Vec2.new s c⟩

/-- `Mat2x2::new`. -/
def new (col1 col2 : Vec2) : Mat2x2 := ⟨col1, col2⟩

/-- `Mat2x2::transpose`. -/
def transpose (m : Mat2x2) : Mat2x2 :=
  ⟨Vec2.new m.col1.x m.col2.x, Vec2.new m.col1.y m.col2.y⟩

/-- `Mat2x2::invert`: computes the determinant, `assert!`s that it is
nonzero (a process abort when it is zero, modelled by `panicked`), and
otherwise returns the matrix the source builds (note: the source scales the
adjugate by `det` instead of dividing by it). -/
def invert (m : Mat2x2) : RustResult Mat2x2 :=
  let a := m.col1.x
  let b := m.col2.x
  let c := m.col1.y
  let d := m.col2.y
  let det := a * d - b * c
  if det = 0 then .panicked ("Can\x27t invert Matrix with 0 determinant.")
  else .ok ⟨Vec2.new (det * d) (-det * c), Vec2.new (-det * b) (det * a)⟩

/-- `Mat2x2::abs`: componentwise absolute value. -/
def abs (m : Mat2x2) : Mat2x2 := ⟨m.col1.abs, m.col2.abs⟩

/-- `impl Add for Mat2x2`. -/
instance : Add Mat2x2 := ⟨fun m n => ⟨m.col1 + n.col1, m.col2 + n.col2⟩⟩

/-- `impl Mul<Vec2> for Mat2x2`. -/
instance : HMul Mat2x2 Vec2 Vec2 :=
  ⟨fun m v => ⟨m.col1.x * v.x + m.col2.x * v.y, m.col1.y * v.x + m.col2.y * v.y⟩⟩

/-- `impl Mul for Mat2x2`. -/
instance : Mul Mat2x2 := ⟨fun m n => ⟨m * n.col1, m * n.col2⟩⟩

end Mat2x2

/-! ## src/body.rs -/

/-- `Shape`: tag for a body's collision shape. -/
inductive Shape where
  | box : Shape
  | convexPolygon : Shape
deriving DecidableEq

/-- `ConvexPolygon` from src/body.rs: a list of vertices. -/
structure ConvexPolygon where
  vertices : List Vec2
deriving DecidableEq

namespace ConvexPolygon

/-- `ConvexPolygon::new`. -/
def new (vertices : List Vec2) : ConvexPolygon := ⟨vertices⟩

/-- `ConvexPolygon::get_num_vertices`. -/
def getNumVertices (p : ConvexPolygon) : ℕ := p.vertices.length

/-- `ConvexPolygon::get_vertex`: the source computes the index
`((i + n as isize + 1) % n as isize) as usize` (Rust `%` on `isize` is the
truncated remainder, `Int.tmod`) and indexes the vertex list with it.
For `n = 0` the Rust code aborts on a remainder by zero; the model returns
the default vertex instead (no claim touches that case). -/
def getVertex (p : ConvexPolygon) (i : ℤ) : Vec2 :=
  let n : ℤ := (p.getNumVertices : ℤ)
  let index := (Int.tmod (i + n + 1) n).toNat
  p.vertices.getD index Vec2.default

/-- `ConvexPolygon::get_edge`: vector from `get_vertex i` to `get_vertex (i+1)`. -/
def getEdge (p : ConvexPolygon) (i : ℤ) : Vec2 :=
  let v1 := p.getVertex i
  let v2 := p.getVertex (i + 1)
  v2 - v1

/-- `ConvexPolygon::get_normal`: `(edge.y, -edge.x)`. -/
def getNormal (p : ConvexPolygon) (i : ℤ) : Vec2 :=
  let edge := p.getEdge i
  ⟨edge.y, -edge.x⟩

/-- `ConvexPolygon::area`: half the absolute value of the summed cross
products (shoelace formula over the shifted vertex accessor). -/
def area (p : ConvexPolygon) : ℝ :=
  let n := p.getNumVertices
  let a := (List.range n).foldl
    (fun acc i =>
      let p1 := p.getVertex (i : ℤ)
      let p2 := p.getVertex ((i : ℤ) + 1)
      acc + (p1.x * p2.y - p1.y * p2.x)) 0
  |a| / 2

/-- `ConvexPolygon::orient_counterclockwise`: reverse the vertex order when
the area comes out negative.  (With the source's `area`, which is an
absolute value, the guard `area < 0` can in fact never fire.) -/
def orientCounterclockwise (p : ConvexPolygon) : ConvexPolygon :=
  if p.area < 0 then ⟨p.vertices.reverse⟩ else p

/-- `ConvexPolygon::centroid`. -/
def centroid (p : ConvexPolygon) : Vec2 :=
  let n := p.getNumVertices
  let acc := (List.range n).foldl
    (fun (acc : ℝ × ℝ × ℝ) i =>
      let p1 := p.getVertex (i : ℤ)
      let p2 := p.getVertex ((i : ℤ) + 1)
      let cross := p1.x * p2.y - p1.y * p2.x
      (acc.1 + cross, acc.2.1 + (p1.x + p2.x) * cross, acc.2.2 + (p1.y + p2.y) * cross))
    (0, 0, 0)
  let area := acc.1 / 2
  ⟨acc.2.1 / (6 * area), acc.2.2 / (6 * area)⟩

/-- `ConvexPolygon::moi`: second moment about the centroid. -/
def moi (p : ConvexPolygon) : ℝ :=
  let n := p.getNumVertices
  let c := p.centroid
  let m := (List.range n).foldl
    (fun acc i =>
      let p1 : Vec2 := ⟨(p.getVertex (i : ℤ)).x - c.x, (p.getVertex (i : ℤ)).y - c.y⟩
      let p2 : Vec2 := ⟨(p.getVertex ((i : ℤ) + 1)).x - c.x, (p.getVertex ((i : ℤ) + 1)).y - c.y⟩
      let cross := p1.x * p2.y - p1.y * p2.x
      acc + cross * (p1.x * p1.x + p1.x * p2.x + p2.x * p2.x
        + p1.y * p1.y + p1.y * p2.y + p2.y * p2.y)) 0
  |m| / 12

/-- `ConvexPolygon::bounding_box`: width/height of the axis-aligned bounding
box, via min/max folds initialised with `f32::MAX`/`f32::MIN`. -/
def boundingBox (p : ConvexPolygon) : Vec2 :=
  let acc := p.vertices.foldl
    (fun (acc : ℝ × ℝ × ℝ × ℝ) v =>
      let minX := if v.x < acc.1 then v.x else acc.1
      let maxX := if v.x > acc.2.1 then v.x else acc.2.1
      let minY := if v.y < acc.2.2.1 then v.y else acc.2.2.1
      let maxY := if v.y > acc.2.2.2 then v.y else acc.2.2.2
      (minX, maxX, minY, maxY))
    (f32Max, f32Min, f32Max, f32Min)
  Vec2.new (acc.2.1 - acc.1) (acc.2.2.2 - acc.2.2.1)

/-- `ConvexPolygon::rotate`: rotate every vertex about the centroid. -/
def rotate (p : ConvexPolygon) (angle : ℝ) : ConvexPolygon :=
  let center := p.centroid
  let rotationMat := Mat2x2.newFromAngle angle
  ⟨p.vertices.map (fun v => rotationMat * Vec2.new (v.x - center.x) (v.y - center.y))⟩

/-- `ConvexPolygon::translate`. -/
def translate (p : ConvexPolygon) (position : Vec2) : ConvexPolygon :=
  ⟨p.vertices.map (fun v => v + position)⟩

/-- `ConvexPolygon::get_vertices`. -/
def getVertices (p : ConvexPolygon) : List Vec2 := p.vertices

end ConvexPolygon

/-- `Body` from src/body.rs. -/
structure Body where
  id : ℕ
  position : Vec2
  rotation : ℝ
  velocity : Vec2
  angularVelocity : ℝ
  force : Vec2
  torque : ℝ
  width : Vec2
  friction : ℝ
  mass : ℝ
  invMass : ℝ
  moi : ℝ
  invMoi : ℝ
  vertices : List Vec2
  shape : Shape

instance : Inhabited Body :=
  ⟨⟨0, Vec2.default, 0, Vec2.default, 0, Vec2.default, 0, Vec2.default, 0, 0, 0, 0, 0,
    [], Shape.box⟩⟩

namespace Body

/-- `Body::new`: builds a box body.  The source draws the id from a global
atomic counter; the model takes it as an argument.  There is no input
validation: any `mass` (zero or negative included) is accepted, and for
`mass < f32::MAX` the inverse quantities are computed by plain division
(in Rust `1.0 / 0.0` is `+inf`; in this real-number model `1 / 0 = 0` —
no claim depends on the value). -/
def new (id : ℕ) (width : Vec2) (mass : ℝ) : Body :=
  let invMass := if mass < f32Max then 1 / mass else 0
  let moi := if mass < f32Max then mass * (width.x * width.x + width.y * width.y) / 12 else f32Max
  let invMoi := if mass < f32Max then 1 / (mass * (width.x * width.x + width.y * width.y) / 12) else 0
  let hw := width.x / 2
  let hh := width.y / 2
  { id := id
    position := Vec2.new 0 0
    rotation := 0
    velocity := Vec2.new 0 0
    angularVelocity := 0
    force := Vec2.new 0 0
    torque := 0
    friction := 0
    width := width
    mass := mass
    invMass := invMass
    invMoi := invMoi
    moi := moi
    vertices := [⟨hw, hh⟩, ⟨-hw, hh⟩, ⟨-hw, -hh⟩, ⟨hw, -hh⟩]
    shape := Shape.box }

/-- `Body::new_polygon`: builds a polygon body from a vertex list (again with
the id passed explicitly in place of the global counter).  No input
validation: an empty vertex list or a non-positive mass is accepted. -/
def newPolygon (id : ℕ) (vertices : List Vec2) (mass : ℝ) : Body :=
  let convexPolygon := ConvexPolygon.orientCounterclockwise ⟨vertices⟩
  let invMass := if mass < f32Max then 1 / mass else 0
  let moi := if mass < f32Max then mass * convexPolygon.moi else f32Max
  let invMoi := if mass < f32Max then 1 / (mass * convexPolygon.moi) else 0
  let width := convexPolygon.boundingBox
  { id := id
    position := Vec2.new 0 0
    rotation := 0
    velocity := Vec2.new 0 0
    angularVelocity := 0
    force := Vec2.new 0 0
    torque := 0
    friction := 0
    width := width
    mass := mass
    invMass := invMass
    invMoi := invMoi
    moi := moi
    vertices := vertices
    shape := Shape.convexPolygon }

/-- `Body::add_force`. -/
def addForce (b : Body) (force : Vec2) : Body := { b with force := b.force + force }

/-- `Body::get_polygon`. -/
def getPolygon (b : Body) : ConvexPolygon := ⟨b.vertices⟩

end Body

/-! ## src/arbiter.rs — contact data model -/

/-- `ArbiterErrors` from src/arbiter.rs. -/
inductive ArbiterErrors where
  | noOldContactFound : ArbiterErrors
  | noNewContactFound : ArbiterErrors
deriving DecidableEq

/-- `EdgeNumbers`: the four box edges plus the `NoEdge` sentinel. -/
inductive EdgeNumbers where
  | noEdge : EdgeNumbers
  | edge1 : EdgeNumbers
  | edge2 : EdgeNumbers
  | edge3 : EdgeNumbers
  | edge4 : EdgeNumbers
deriving DecidableEq

/-- `Edges`: incident/reference edge indices of a contact feature. -/
structure Edges where
  inEdge1 : EdgeNumbers
  outEdge1 : EdgeNumbers
  inEdge2 : EdgeNumbers
  outEdge2 : EdgeNumbers
deriving DecidableEq

/-- `Edges::default()`: all `NoEdge`. -/
def Edges.default : Edges :=
  ⟨EdgeNumbers.noEdge, EdgeNumbers.noEdge, EdgeNumbers.noEdge, EdgeNumbers.noEdge⟩

/-- `FeaturePair`: edge identity plus the `value` key (an `i32` in the
source, reinterpreting the edges as a packed integer in spirit; modelled
as the stored integer field). -/
structure FeaturePair where
  edges : Edges
  value : ℤ
deriving DecidableEq

/-- `FeaturePair::new`. -/
def FeaturePair.new (edges : Edges) (value : ℤ) : FeaturePair := ⟨edges, value⟩

/-- `FeaturePair::default()`. -/
def FeaturePair.default : FeaturePair := ⟨Edges.default, 0⟩

/-- `ContactInfo` from src/arbiter.rs: one point of a contact manifold. -/
structure ContactInfo where
  position : Vec2
  normal : Vec2
  r1 : Vec2
  r2 : Vec2
  separation : ℝ
  pn : ℝ
  pt : ℝ
  pnb : ℝ
  massNormal : ℝ
  massTangent : ℝ
  bias : ℝ
  feature : FeaturePair

/-- `ContactInfo::default()`: everything zero. -/
def ContactInfo.default : ContactInfo :=
  ⟨Vec2.default, Vec2.default, Vec2.default, Vec2.default, 0, 0, 0, 0, 0, 0, 0,
   FeaturePair.default⟩

/-- `type Contact = Option<ContactInfo>`. -/
abbrev Contact : Type := Option ContactInfo

/-! ## src/collide.rs — box-box narrow phase -/

/-- The candidate separating axis chosen by `collide`. -/
inductive Axis where
  | faceAX : Axis
  | faceAY : Axis
  | faceBX : Axis
  | faceBY : Axis
deriving DecidableEq

/-- `ClipVertex`: a clip point together with the feature that produced it. -/
structure ClipVertex where
  fp : FeaturePair
  v : Vec2

/-- `ClipVertex::default()`. -/
def ClipVertex.default : ClipVertex := ⟨FeaturePair.new Edges.default 0, Vec2.new 0 0⟩

/-- `flip` from src/collide.rs: swap the two in-edges and the two out-edges
of a feature pair.  (Named `FeaturePair.flip` because plain `flip` is taken
by the Lean core library.) -/
def FeaturePair.flip (fp : FeaturePair) : FeaturePair :=
  { fp with
    edges :=
      { inEdge1 := fp.edges.inEdge2
        inEdge2 := fp.edges.inEdge1
        outEdge1 := fp.edges.outEdge2
        outEdge2 := fp.edges.outEdge1 } }

/-- `clip_segment_to_line`: two-point segment vs. half-plane clip.  Keeps the
input points with signed distance ≤ 0 (in input order) and, when the segment
crosses the plane, appends the interpolated intersection point tagged with
the clipping edge.  The returned list is the `v_out` array up to `num_out`. -/
def clipSegmentToLine (vIn : ClipVertex × ClipVertex) (normal : Vec2) (offset : ℝ)
    (clipEdge : EdgeNumbers) : List ClipVertex :=
  let distance0 := normal.dot vIn.1.v - offset
  let distance1 := normal.dot vIn.2.v - offset
  let keep0 : List ClipVertex := if distance0 ≤ 0 then [vIn.1] else []
  let keep1 : List ClipVertex := if distance1 ≤ 0 then [vIn.2] else []
  let crossing : List ClipVertex :=
    if distance0 * distance1 < 0 then
      let interp := distance0 / (distance0 - distance1)
      let v := vIn.1.v + (vIn.2.v - vIn.1.v) * interp
      let fp :=
        if distance0 > 0 then
          { vIn.1.fp with
            edges := { vIn.1.fp.edges with inEdge1 := clipEdge, inEdge2 := EdgeNumbers.noEdge } }
        else
          { vIn.2.fp with
            edges := { vIn.2.fp.edges with outEdge1 := clipEdge, outEdge2 := EdgeNumbers.noEdge } }
      [⟨fp, v⟩]
    else []
  keep0 ++ keep1 ++ crossing

/-- A clip vertex of the incident edge: starts from `ClipVertex::default()`
and sets the vertex and the two body-2 edge tags, exactly the fields
`compute_incident_edge` assigns on `c1`/`c2`. -/
def incidentClipVertex (v : Vec2) (inE outE : EdgeNumbers) : ClipVertex :=
  let d := ClipVertex.default
  { d with
    v := v
    fp := { d.fp with edges := { d.fp.edges with inEdge2 := inE, outEdge2 := outE } } }

/-- `compute_incident_edge`: the two vertices of the incident box whose face
is most anti-parallel to the reference normal, tagged with their edges and
mapped to world space. -/
def computeIncidentEdge (h pos : Vec2) (rot : Mat2x2) (normal : Vec2) :
    ClipVertex × ClipVertex :=
  let rotT := rot.transpose
  let n := -(rotT * normal)
  let absN := n.abs
  let (c1, c2) :=
    if absN.x > absN.y then
      if rustSignum n.x > 0 then
        (incidentClipVertex (Vec2.new h.x (-h.y)) EdgeNumbers.edge3 EdgeNumbers.edge4,
         incidentClipVertex (Vec2.new h.x h.y) EdgeNumbers.edge4 EdgeNumbers.edge1)
      else
        (incidentClipVertex (Vec2.new (-h.x) h.y) EdgeNumbers.edge1 EdgeNumbers.edge2,
         incidentClipVertex (Vec2.new (-h.x) (-h.y)) EdgeNumbers.edge2 EdgeNumbers.edge3)
    else
      if rustSignum n.y > 0 then
        (incidentClipVertex (Vec2.new h.x h.y) EdgeNumbers.edge4 EdgeNumbers.edge1,
         incidentClipVertex (Vec2.new (-h.x) h.y) EdgeNumbers.edge1 EdgeNumbers.edge2)
      else
        (incidentClipVertex (Vec2.new (-h.x) (-h.y)) EdgeNumbers.edge2 EdgeNumbers.edge3,
         incidentClipVertex (Vec2.new h.x (-h.y)) EdgeNumbers.edge3 EdgeNumbers.edge4)
  ({ c1 with v := pos + rot * c1.v }, { c2 with v := pos + rot * c2.v })

/-- `RELATIVE_TOL` from `collide`. -/
def relativeTol : ℝ := 0.95

/-- `ABSOLUTE_TOL` from `collide`. -/
def absoluteTol : ℝ := 0.01

/-- The per-axis penetration vector `face_a` computed by `collide`
(src/collide.rs line 163): `|d_a| - h_a - |C| * h_b`. -/
def collideFaceA (bodyA bodyB : Body) : Vec2 :=
  let hA := bodyA.width * (0.5 : ℝ)
  let hB := bodyB.width * (0.5 : ℝ)
  let rotA := Mat2x2.newFromAngle bodyA.rotation
  let rotB := Mat2x2.newFromAngle bodyB.rotation
  let rotAT := rotA.transpose
  let dP := bodyB.position - bodyA.position
  let dA := rotAT * dP
  let c := rotAT * rotB
  let absC := c.abs
  dA.abs - hA - absC * hB

/-- The per-axis penetration vector `face_b` computed by `collide`
(src/collide.rs line 167): `|d_b| - h_b - |C|ᵀ * h_a`. -/
def collideFaceB (bodyA bodyB : Body) : Vec2 :=
  let hA := bodyA.width * (0.5 : ℝ)
  let hB := bodyB.width * (0.5 : ℝ)
  let rotA := Mat2x2.newFromAngle bodyA.rotation
  let rotB := Mat2x2.newFromAngle bodyB.rotation
  let rotAT := rotA.transpose
  let rotBT := rotB.transpose
  let dP := bodyB.position - bodyA.position
  let dB := rotBT * dP
  let c := rotAT * rotB
  let absCT := c.abs.transpose
  dB.abs - hB - absCT * hA

/-- Reference-face clipping data assembled by the `match axis` block of
`collide` (a tupling of the source's local variables `front_normal`,
`front`, `side_normal`, `neg_side`, `pos_side`, `neg_edge`, `pos_edge` and
`incident_edge`). -/
structure RefFace where
  frontNormal : Vec2
  front : ℝ
  sideNormal : Vec2
  negSide : ℝ
  posSide : ℝ
  negEdge : EdgeNumbers
  posEdge : EdgeNumbers
  incidentEdge : ClipVertex × ClipVertex

/-- The axis-selection chain of `collide`: start from `FACE_A_X` and switch
to a later axis only when its penetration exceeds
`0.95 * best + 0.01 * half_extent` (the source's biased tie-break).  Returns
the chosen axis, its separation and the contact normal. -/
def collideAxis (bodyA bodyB : Body) : Axis × ℝ × Vec2 :=
  let hA := bodyA.width * (0.5 : ℝ)
  let hB := bodyB.width * (0.5 : ℝ)
  let rotA := Mat2x2.newFromAngle bodyA.rotation
  let rotB := Mat2x2.newFromAngle bodyB.rotation
  let dP := bodyB.position - bodyA.position
  let dA := rotA.transpose * dP
  let dB := rotB.transpose * dP
  let faceA := collideFaceA bodyA bodyB
  let faceB := collideFaceB bodyA bodyB
  let s1 : Axis × ℝ × Vec2 :=
    (Axis.faceAX, faceA.x, if dA.x > 0 then rotA.col1 else -rotA.col1)
  let s2 : Axis × ℝ × Vec2 :=
    if faceA.y > relativeTol * s1.2.1 + absoluteTol * hA.y then
      (Axis.faceAY, faceA.y, if dA.y > 0 then rotA.col2 else -rotA.col2)
    else s1
  let s3 : Axis × ℝ × Vec2 :=
    if faceB.x > relativeTol * s2.2.1 + absoluteTol * hB.x then
      (Axis.faceBX, faceB.x, if dB.x > 0 then rotB.col1 else -rotB.col1)
    else s2
  if faceB.y > relativeTol * s3.2.1 + absoluteTol * hB.y then
    (Axis.faceBY, faceB.y, if dB.y > 0 then rotB.col2 else -rotB.col2)
  else s3

/-- The `match axis` block of `collide`: reference-face clipping data and
the incident edge of the other body. -/
def collideRefFace (bodyA bodyB : Body) (axis : Axis) (normal : Vec2) : RefFace :=
  let hA := bodyA.width * (0.5 : ℝ)
  let hB := bodyB.width * (0.5 : ℝ)
  let posA := bodyA.position
  let posB := bodyB.position
  let rotA := Mat2x2.newFromAngle bodyA.rotation
  let rotB := Mat2x2.newFromAngle bodyB.rotation
  match axis with
  | Axis.faceAX =>
    { frontNormal := normal
      front := posA.dot normal + hA.x
      sideNormal := rotA.col2
      negSide := -(posA.dot rotA.col2) + hA.y
      posSide := posA.dot rotA.col2 + hA.y
      negEdge := EdgeNumbers.edge3
      posEdge := EdgeNumbers.edge1
      incidentEdge := computeIncidentEdge hB posB rotB normal }
  | Axis.faceAY =>
    { frontNormal := normal
      front := posA.dot normal + hA.y
      sideNormal := rotA.col1
      negSide := -(posA.dot rotA.col1) + hA.x
      posSide := posA.dot rotA.col1 + hA.x
      negEdge := EdgeNumbers.edge2
      posEdge := EdgeNumbers.edge4
      incidentEdge := computeIncidentEdge hB posB rotB normal }
  | Axis.faceBX =>
    { frontNormal := -normal
      front := posB.dot (-normal) + hB.x
      sideNormal := rotB.col2
      negSide := -(posB.dot rotB.col2) + hB.y
      posSide := posB.dot rotB.col2 + hB.y
      negEdge := EdgeNumbers.edge3
      posEdge := EdgeNumbers.edge1
      incidentEdge := computeIncidentEdge hA posA rotA (-normal) }
  | Axis.faceBY =>
    { frontNormal := -normal
      front := posB.dot (-normal) + hB.y
      sideNormal := rotB.col1
      negSide := -(posB.dot rotB.col1) + hB.x
      posSide := posB.dot rotB.col1 + hB.x
      negEdge := EdgeNumbers.edge2
      posEdge := EdgeNumbers.edge4
      incidentEdge := computeIncidentEdge hA posA rotA (-normal) }

/-- The body of the final acceptance loop of `collide`: a clipped point with
non-positive separation from the reference face becomes a contact (with the
feature pair flipped when the reference face is on body B); a point in
front of the face is discarded. -/
def acceptContact (axis : Axis) (normal frontNormal : Vec2) (front : ℝ)
    (cp : ClipVertex) : Option Contact :=
  let separation := frontNormal.dot cp.v - front
  if separation ≤ 0 then
    let fp := if axis = Axis.faceBX ∨ axis = Axis.faceBY then FeaturePair.flip cp.fp else cp.fp
    some (some
      { ContactInfo.default with
        separation := separation
        normal := normal
        position := cp.v - frontNormal * separation
        feature := fp })
  else none

/-- The part of `collide` after the two rejection tests: axis selection,
reference-face setup, clipping against the two side planes (fewer than two
surviving points after either clip means no contact) and the acceptance
loop. -/
def collidePost (bodyA bodyB : Body) : List Contact :=
  let s := collideAxis bodyA bodyB
  let axis := s.1
  let normal := s.2.2
  let rf := collideRefFace bodyA bodyB axis normal
  match clipSegmentToLine rf.incidentEdge (-rf.sideNormal) rf.negSide rf.negEdge with
  | [p0, p1] =>
    (match clipSegmentToLine (p0, p1) rf.sideNormal rf.posSide rf.posEdge with
     | [q0, q1] => [q0, q1].filterMap (acceptContact axis normal rf.frontNormal rf.front)
     | _ => [])
  | _ => []

/-- `collide` from src/collide.rs: box-box narrow-phase collision.  Returns
the list of contacts pushed into the output vector (the source's return
value `num_contacts` is the length of this list).  The two early `return 0`
rejection tests come first; `collidePost` is the rest of the function. -/
def collide (bodyA bodyB : Body) : List Contact :=
  let faceA := collideFaceA bodyA bodyB
  let faceB := collideFaceB bodyA bodyB
  if faceA.x > 0 ∨ faceA.y > 0 then []
  else if faceB.x > 0 ∨ faceB.y > 0 then []
  else collidePost bodyA bodyB

/-! ## src/collide_polygon.rs — convex polygon narrow phase -/

/-- `which_side`: 1 if all vertices of the polygon lie strictly on the
positive side of the line through `p` with normal direction `d`, -1 if none
does, 0 if the line splits the polygon.  (The source early-returns 0 as soon
as both counters are positive; counting to the end and testing both counters
at the end returns the same value.) -/
def whichSide (polygon : ConvexPolygon) (p d : Vec2) : ℤ :=
  let counts := (List.range polygon.getNumVertices).foldl
    (fun (acc : ℕ × ℕ) i =>
      let vertex := polygon.getVertex (i : ℤ)
      let t := d.dot (vertex - p)
      if t > 0 then (acc.1 + 1, acc.2)
      else if t < 0 then (acc.1, acc.2 + 1)
      else acc)
    (0, 0)
  if counts.1 > 0 ∧ counts.2 > 0 then 0
  else if counts.1 > 0 then 1
  else -1

/-- `test_intersection`: separating-axis test over every edge of both
polygons (again, short-circuiting `return false` is replaced by `all`). -/
def testIntersection (c0 c1 : ConvexPolygon) : Bool :=
  ((List.range c0.getNumVertices).all (fun i0 =>
    let i1 := (i0 + 1) % c0.getNumVertices
    let p := c0.getVertex (i1 : ℤ)
    let d := c0.getNormal (i0 : ℤ)
    decide (whichSide c1 p d ≤ 0)))
  &&
  ((List.range c1.getNumVertices).all (fun i0 =>
    let i1 := (i0 + 1) % c1.getNumVertices
    let p := c1.getVertex (i1 : ℤ)
    let d := c1.getNormal (i0 : ℤ)
    decide (whichSide c0 p d ≤ 0)))

/-- `clip_polygon`: Sutherland–Hodgman clip of `polygon` against every edge
of `clipPoly`, then re-assign to each surviving vertex the unit normal of
the closest edge of `clipPoly`. -/
def clipPolygon (polygon clipPoly : ConvexPolygon) : List (Vec2 × Vec2) :=
  let st := (List.range clipPoly.getNumVertices).foldl
    (fun (st : ConvexPolygon × List (Vec2 × Vec2)) j =>
      let edgeStart := clipPoly.getVertex (j : ℤ)
      let edgeNormal := clipPoly.getNormal (j : ℤ)
      let poly := st.1
      let currentClipped := (List.range poly.getNumVertices).foldl
        (fun (acc : List (Vec2 × Vec2)) i =>
          let current := poly.getVertex (i : ℤ)
          let next := poly.getVertex ((i : ℤ) + 1)
          let distCurrent := edgeNormal.dot (current - edgeStart) / edgeNormal.length
          let distNext := edgeNormal.dot (next - edgeStart) / edgeNormal.length
          let acc1 := if distCurrent ≤ 0 then acc ++ [(current, edgeNormal)] else acc
          if distCurrent * distNext < 0 then
            let interp := distCurrent / (distCurrent - distNext)
            acc1 ++ [(current + (next - current) * interp, edgeNormal)]
          else acc1)
        []
      (ConvexPolygon.new (currentClipped.map Prod.fst), currentClipped))
    (ConvexPolygon.new polygon.getVertices, [])
  st.2.map (fun pair =>
    let vertex := pair.1
    let best := (List.range clipPoly.getNumVertices).foldl
      (fun (acc : ℝ × Vec2) j =>
        let edgeStart := clipPoly.getVertex (j : ℤ)
        let edgeEnd := clipPoly.getVertex ((j : ℤ) + 1)
        let edge := edgeEnd - edgeStart
        let normal0 : Vec2 := ⟨-edge.y, edge.x⟩
        let normal := normal0 * (1 / normal0.length)
        let toPoint := vertex - edgeStart
        let distance := |toPoint.dot normal|
        if distance < acc.1 then (distance, normal) else acc)
      (f32Max, Vec2.new 0 0)
    (vertex, best.2))

/-- `find_contact_points`: one contact per clipped vertex, with the scaled
separation `dot(position, normal) * 0.001` the source computes. -/
def findContactPoints (c0 c1 : ConvexPolygon) : List Contact :=
  let clipped := clipPolygon c0 c1
  if clipped.isEmpty then []
  else clipped.map (fun pc =>
    let separation := pc.1.dot pc.2
    some
      { ContactInfo.default with
        position := pc.1
        normal := pc.2
        separation := separation * 0.001
        feature := FeaturePair.new Edges.default 0 })

/-- `collide_polygons`: transform both bodies to world space, SAT test, then
clip.  Returns the contact list (the source returns its length). -/
def collidePolygons (b1 b2 : Body) : List Contact :=
  let c0 := (b1.getPolygon.rotate b1.rotation).translate b1.position
  let c1 := (b2.getPolygon.rotate b2.rotation).translate b2.position
  if testIntersection c0 c1 then findContactPoints c0 c1 else []

/-! ## src/arbiter.rs — arbiter lifecycle and solver -/

/-- `WorldContext` from src/world.rs: the three solver feature toggles. -/
structure WorldContext where
  accumulateImpulse : Bool
  warmStarting : Bool
  positionCorrection : Bool

/-- `ArbiterKey`: unordered pair of body ids, canonicalised smaller-first. -/
structure ArbiterKey where
  body1Id : ℕ
  body2Id : ℕ
deriving DecidableEq

/-- `ArbiterKey::new`. -/
def ArbiterKey.new (body1 body2 : Body) : ArbiterKey :=
  if body1.id < body2.id then ⟨body1.id, body2.id⟩ else ⟨body2.id, body1.id⟩

/-- `Arbiter`: contact manifold and solver state for one pair of bodies.
The two `Rc<RefCell<Body>>` references are modelled as indices into the
world's body list. -/
structure Arbiter where
  body1 : ℕ
  body2 : ℕ
  friction : ℝ
  numContacts : ℤ
  contacts : List Contact

/-- `Arbiter::new`, as called from `World::broad_phase` with `i < j`: runs
the shape-dispatched narrow phase and combines frictions.  When the two ids
are out of order the source calls `RefCell::swap` on the body cells while
`broad_phase` still holds shared borrows of both, which aborts the process
(modelled as `panicked`). -/
def Arbiter.new (bodies : List Body) (i j : ℕ) : RustResult Arbiter :=
  let b1 := bodies.getD i default
  let b2 := bodies.getD j default
  if b1.id > b2.id then .panicked ("already mutably borrowed: BorrowMutError")
  else
    let contacts :=
      match b1.shape, b2.shape with
      | Shape.box, Shape.box => collide b1 b2
      | _, _ => collidePolygons b1 b2
    .ok
      { body1 := i
        body2 := j
        friction := Real.sqrt (b1.friction * b2.friction)
        numContacts := (contacts.length : ℤ)
        contacts := contacts }

/-- The merge loop of `Arbiter::update`: walk the new contacts in order; a
`None` slot contributes nothing; a `Some` contact is matched against the
first old contact with the same `FeaturePair` value, in which case the old
accumulated impulses are carried over (warm starting) or zeroed, and an
unmatched contact is pushed unchanged.  The `NoOldContactFound` error branch
transcribes the source's `ok_or` on the matched old slot (it cannot fire,
since a `None` old slot never matches). -/
def updateMergeLoop (oldContacts : List Contact) (warmStarting : Bool) :
    List Contact → Except ArbiterErrors (List Contact)
  | [] => Except.ok []
  | newContact :: rest =>
    match newContact with
    | none => updateMergeLoop oldContacts warmStarting rest
    | some nc =>
      match oldContacts.find?
          (fun c => c.map (fun ci => ci.feature.value) = some nc.feature.value) with
      | some oldSlot =>
        match oldSlot with
        | none => Except.error ArbiterErrors.noOldContactFound
        | some cOld =>
          let ncMerged :=
            if warmStarting then { nc with pn := cOld.pn, pt := cOld.pt, pnb := cOld.pnb }
            else { nc with pn := 0, pt := 0, pnb := 0 }
          (updateMergeLoop oldContacts warmStarting rest).map (fun tail => some ncMerged :: tail)
      | none =>
        (updateMergeLoop oldContacts warmStarting rest).map (fun tail => newContact :: tail)

/-- `Arbiter::update`: replace the manifold by the merged contacts and set
`num_contacts` to the passed count; on the (unreachable) error the arbiter
is left unchanged, as in the source where `self.contacts` is only assigned
after the loop. -/
def Arbiter.update (arb : Arbiter) (newContacts : List Contact) (numNewContacts : ℤ)
    (worldContext : WorldContext) : Except ArbiterErrors Arbiter :=
  (updateMergeLoop arb.contacts worldContext.warmStarting newContacts).map
    (fun merged => { arb with contacts := merged, numContacts := numNewContacts })

/-- `k_allowed_penetration` from `Arbiter::pre_step`. -/
def kAllowedPenetration : ℝ := 0.01

/-- `k_bias_factor` from `Arbiter::pre_step`. -/
def kBiasFactorOf (positionCorrection : Bool) : ℝ := if positionCorrection then 0.2 else 0

/-- Rust `f32::clamp`. -/
def rustClamp (x lo hi : ℝ) : ℝ := min (max x lo) hi

/-- One contact of `Arbiter::pre_step`: precompute effective masses and
bias, and (when accumulating) re-apply the carried-over impulses to the two
bodies.  The state threads the two borrowed bodies and the contacts
processed so far. -/
def arbiterPreStepContact (invDt : ℝ) (ctx : WorldContext)
    (st : Body × Body × List Contact) (contact : Contact) : Body × Body × List Contact :=
  match contact with
  | none => (st.1, st.2.1, st.2.2 ++ [none])
  | some c =>
    let b1 := st.1
    let b2 := st.2.1
    let r1 := c.position - b1.position
    let r2 := c.position - b2.position
    let rn1 := r1.dot c.normal
    let rn2 := r2.dot c.normal
    let kNormal := b1.invMass + b2.invMass
      + (b1.invMoi * (r1.dot r1 - rn1 * rn1) + b2.invMoi * (r2.dot r2 - rn2 * rn2))
    let tangent := c.normal.crossScalar 1
    let rt1 := r1.dot tangent
    let rt2 := r2.dot tangent
    let kTangent := b1.invMass + b2.invMass
      + (b1.invMoi * (r1.dot r1 - rt1 * rt1) + b2.invMoi * (r2.dot r2 - rt2 * rt2))
    let c2 :=
      { c with
        massNormal := 1 / kNormal
        massTangent := 1 / kTangent
        bias := -(kBiasFactorOf ctx.positionCorrection) * invDt
          * min 0 (c.separation + kAllowedPenetration) }
    if ctx.accumulateImpulse then
      let p := c.normal * c.pn + tangent * c.pt
      let b1n :=
        { b1 with
          velocity := b1.velocity - p * b1.invMass
          angularVelocity := b1.angularVelocity - b1.invMoi * (r1.cross p) }
      let b2n :=
        { b2 with
          velocity := b2.velocity + p * b2.invMass
          angularVelocity := b2.angularVelocity + b2.invMoi * (r2.cross p) }
      (b1n, b2n, st.2.2 ++ [some c2])
    else (b1, b2, st.2.2 ++ [some c2])

/-- `Arbiter::pre_step`: mutably borrows the two bodies (a shared cell —
i.e. equal indices — would abort) and runs the per-contact precomputation. -/
def Arbiter.preStep (bodies : List Body) (arb : Arbiter) (invDt : ℝ) (ctx : WorldContext) :
    RustResult (List Body × Arbiter) :=
  if arb.body1 = arb.body2 then .panicked ("already borrowed: BorrowMutError")
  else
    let b1 := bodies.getD arb.body1 default
    let b2 := bodies.getD arb.body2 default
    let st := arb.contacts.foldl (arbiterPreStepContact invDt ctx) (b1, b2, [])
    .ok ((bodies.set arb.body1 st.1).set arb.body2 st.2.1, { arb with contacts := st.2.2 })

/-- One contact of `Arbiter::apply_impulse`: normal impulse (clamped, with
or without accumulation), velocity update, then friction impulse (clamped
to the friction cone), velocity update. -/
def arbiterApplyImpulseContact (friction : ℝ) (ctx : WorldContext)
    (st : Body × Body × List Contact) (contact : Contact) : Body × Body × List Contact :=
  match contact with
  | none => (st.1, st.2.1, st.2.2 ++ [none])
  | some c0 =>
    let b1 := st.1
    let b2 := st.2.1
    let c1 := { c0 with r1 := c0.position - b1.position, r2 := c0.position - b2.position }
    let dv := b2.velocity + Vec2.scalarCross b2.angularVelocity c1.r2
      - b1.velocity - Vec2.scalarCross b1.angularVelocity c1.r1
    let vn := dv.dot c1.normal
    let dPn0 := c1.massNormal * (-vn + c1.bias)
    let (dPn, c2) :=
      if ctx.accumulateImpulse then
        let pn0 := c1.pn
        let pnNew := max (pn0 + dPn0) 0
        (pnNew - pn0, { c1 with pn := pnNew })
      else
        (max 0 dPn0, c1)
    let pn : Vec2 := c2.normal * dPn
    let b1a :=
      { b1 with
        velocity := b1.velocity - pn * b1.invMass
        angularVelocity := b1.angularVelocity - b1.invMoi * (c2.r1.cross pn) }
    let b2a :=
      { b2 with
        velocity := b2.velocity + pn * b2.invMass
        angularVelocity := b2.angularVelocity + b2.invMoi * (c2.r2.cross pn) }
    let dv2 := b2a.velocity + Vec2.scalarCross b2a.angularVelocity c2.r2
      - b1a.velocity - Vec2.scalarCross b1a.angularVelocity c2.r1
    let tangent := c2.normal.crossScalar 1
    let vt := dv2.dot tangent
    let dPt0 := c2.massTangent * (-vt)
    let (dPt, c3) :=
      if ctx.accumulateImpulse then
        let maxPt := friction * c2.pn
        let oldTangentImpulse := c2.pt
        let ptNew := rustClamp (oldTangentImpulse + dPt0) (-maxPt) maxPt
        (ptNew - oldTangentImpulse, { c2 with pt := ptNew })
      else
        let maxPt := friction * dPn
        (rustClamp dPt0 (-maxPt) maxPt, c2)
    let pt : Vec2 := tangent * dPt
    let b1b :=
      { b1a with
        velocity := b1a.velocity - pt * b1a.invMass
        angularVelocity := b1a.angularVelocity - b1a.invMoi * (c3.r1.cross pt) }
    let b2b :=
      { b2a with
        velocity := b2a.velocity + pt * b2a.invMass
        angularVelocity := b2a.angularVelocity + b2a.invMoi * (c3.r2.cross pt) }
    (b1b, b2b, st.2.2 ++ [some c3])

/-- `Arbiter::apply_impulse`: one solver pass over the manifold. -/
def Arbiter.applyImpulse (bodies : List Body) (arb : Arbiter) (ctx : WorldContext) :
    RustResult (List Body × Arbiter) :=
  if arb.body1 = arb.body2 then .panicked ("already borrowed: BorrowMutError")
  else
    let b1 := bodies.getD arb.body1 default
    let b2 := bodies.getD arb.body2 default
    let st := arb.contacts.foldl (arbiterApplyImpulseContact arb.friction ctx) (b1, b2, [])
    .ok ((bodies.set arb.body1 st.1).set arb.body2 st.2.1, { arb with contacts := st.2.2 })

/-! ## src/joint.rs -/

/-- `Joint` from src/joint.rs.  The two `Rc<RefCell<Body>>` references are
modelled as indices into the world's body list. -/
structure Joint where
  p : Vec2
  bias : Vec2
  r1 : Vec2
  r2 : Vec2
  m : Mat2x2
  biasFactor : ℝ
  softness : ℝ
  localAnchor1 : Vec2
  localAnchor2 : Vec2
  body1 : ℕ
  body2 : ℕ

/-- `Joint::pre_step`: recompute the world anchors, build and invert the
effective-mass matrix (the `invert` assertion abort propagates), compute the
positional bias, and either re-apply the accumulated impulse (warm starting)
or zero it.  Mutably borrowing the same body cell twice would abort. -/
def Joint.preStep (bodies : List Body) (j : Joint) (ctx : WorldContext) (invDt : ℝ) :
    RustResult (List Body × Joint) :=
  if j.body1 = j.body2 then .panicked ("already borrowed: BorrowMutError")
  else
    let b1 := bodies.getD j.body1 default
    let b2 := bodies.getD j.body2 default
    let rot1 := Mat2x2.newFromAngle b1.rotation
    let rot2 := Mat2x2.newFromAngle b2.rotation
    let r1 : Vec2 := rot1 * j.localAnchor1
    let r2 : Vec2 := rot2 * j.localAnchor2
    let k1 : Mat2x2 :=
      ⟨Vec2.new (b1.invMass + b2.invMass) 0, Vec2.new 0 (b1.invMass + b2.invMass)⟩
    let k2 : Mat2x2 :=
      ⟨Vec2.new (b1.invMoi * r1.y * r1.y) (-b1.invMoi * r1.x * r1.y),
       Vec2.new (-b1.invMoi * r1.x * r1.y) (b1.invMoi * r1.x * r1.x)⟩
    let k3 : Mat2x2 :=
      ⟨Vec2.new (b2.invMoi * r2.y * r2.y) (-b2.invMoi * r2.x * r2.y),
       Vec2.new (-b2.invMoi * r2.x * r2.y) (b2.invMoi * r2.x * r2.x)⟩
    let k := k1 + k2 + k3
    let kSoft : Mat2x2 :=
      ⟨Vec2.new (k.col1.x + j.softness) k.col1.y, Vec2.new k.col2.x (k.col2.y + j.softness)⟩
    RustResult.bind kSoft.invert (fun m =>
      let p1 := b1.position + r1
      let p2 := b2.position + r2
      let dp := p2 - p1
      let bias : Vec2 :=
        if ctx.positionCorrection then dp * invDt * j.biasFactor * (-1 : ℝ)
        else Vec2.new 0 0
      if ctx.warmStarting then
        let b1n :=
          { b1 with
            velocity := b1.velocity - j.p * b1.invMass
            angularVelocity := b1.angularVelocity - b1.invMoi * (r1.cross j.p) }
        let b2n :=
          { b2 with
            velocity := b2.velocity + j.p * b2.invMass
            angularVelocity := b2.angularVelocity + b2.invMoi * (r2.cross j.p) }
        .ok ((bodies.set j.body1 b1n).set j.body2 b2n,
          { j with r1 := r1, r2 := r2, m := m, bias := bias })
      else
        .ok (bodies,
          { j with r1 := r1, r2 := r2, m := m, bias := bias, p := Vec2.new 0 0 }))

/-- `Joint::apply_impulse`: solve the 2×2 constraint and apply the impulse
to both bodies, accumulating it in `p`. -/
def Joint.applyImpulse (bodies : List Body) (j : Joint) :
    RustResult (List Body × Joint) :=
  if j.body1 = j.body2 then .panicked ("already borrowed: BorrowMutError")
  else
    let b1 := bodies.getD j.body1 default
    let b2 := bodies.getD j.body2 default
    let dv := b2.velocity + Vec2.scalarCross b2.angularVelocity j.r2
      - b1.velocity - Vec2.scalarCross b1.angularVelocity j.r1
    let impulse : Vec2 := j.m * (j.bias - dv - j.p * j.softness)
    let b1n :=
      { b1 with
        velocity := b1.velocity - impulse * b1.invMass
        angularVelocity := b1.angularVelocity - b1.invMoi * (j.r1.cross impulse) }
    let b2n :=
      { b2 with
        velocity := b2.velocity + impulse * b2.invMass
        angularVelocity := b2.angularVelocity + b2.invMoi * (j.r2.cross impulse) }
    .ok ((bodies.set j.body1 b1n).set j.body2 b2n, { j with p := j.p + impulse })

/-! ## src/world.rs -/

/-- `World`: bodies, joints and the arbiter cache.  The source's
`HashMap<ArbiterKey, Arbiter>` is modelled as an association list in
insertion order (the map iteration order is unspecified in Rust; the spec
itself asks for a stable, reproducible order). -/
structure World where
  gravity : Vec2
  iterations : ℕ
  worldContext : WorldContext
  bodies : List Body
  joints : List Joint
  arbiters : List (ArbiterKey × Arbiter)

/-- `World::new`: empty world with the default feature toggles. -/
def World.new (gravity : Vec2) (iterations : ℕ) : World :=
  { gravity := gravity
    iterations := iterations
    worldContext :=
      { accumulateImpulse := true, warmStarting := false, positionCorrection := true }
    bodies := []
    joints := []
    arbiters := [] }

/-- `World::add_body`. -/
def World.addBody (w : World) (body : Body) : World :=
  { w with bodies := w.bodies ++ [body] }

/-- `World::add_joint`. -/
def World.addJoint (w : World) (joint : Joint) : World :=
  { w with joints := w.joints ++ [joint] }

/-- `World::clear`. -/
def World.clear (w : World) : World :=
  { w with bodies := [], joints := [], arbiters := [] }

/-- One inner-loop body of `World::broad_phase` for the pair `(i, j)`,
`i < j`: skip static-static pairs, run the narrow phase via `Arbiter::new`,
then insert/update/remove the pair's arbiter.  The result of
`arbiter.update` is discarded by the source (`let _ = ...`); on its
(unreachable) error the entry keeps its previous state. -/
def broadPhasePair (w : World) (i j : ℕ) : RustResult World :=
  let bodyI := w.bodies.getD i default
  let bodyJ := w.bodies.getD j default
  if bodyI.invMass = 0 ∧ bodyJ.invMass = 0 then .ok w
  else
    RustResult.bind (Arbiter.new w.bodies i j) (fun newArbiter =>
      let key := ArbiterKey.new bodyI bodyJ
      if newArbiter.numContacts > 0 then
        match w.arbiters.find? (fun kv => kv.1 = key) with
        | some kv =>
          let updated :=
            match kv.2.update newArbiter.contacts newArbiter.numContacts w.worldContext with
            | Except.ok arb2 => arb2
            | Except.error _ => kv.2
          .ok { w with
            arbiters := w.arbiters.map (fun kv2 => if kv2.1 = key then (key, updated) else kv2) }
        | none => .ok { w with arbiters := w.arbiters ++ [(key, newArbiter)] }
      else
        .ok { w with arbiters := w.arbiters.filter (fun kv => ¬ (kv.1 = key)) })

/-- `World::broad_phase`: all unordered pairs `(i, j)` with `i < j`, in
index order. -/
def World.broadPhase (w : World) : RustResult World :=
  let n := w.bodies.length
  (List.range n).foldlM
    (fun w1 i => ((List.range n).drop (i + 1)).foldlM (fun w2 j => broadPhasePair w2 i j) w1)
    w

/-- `inv_dt` as computed on the first line of `World::step`:
`if dt > 0.0 { 1.0 / dt } else { 0.0 }`. -/
def World.stepInvDt (dt : ℝ) : ℝ := if dt > 0 then 1 / dt else 0

/-- The force-integration loop body of `World::step`: static bodies are
skipped; otherwise `velocity += (gravity + force * inv_mass) * dt` and
`angular_velocity += inv_moi * torque * dt`. -/
def integrateForces (gravity : Vec2) (dt : ℝ) (b : Body) : Body :=
  if b.invMass = 0 then b
  else
    { b with
      velocity := b.velocity + (gravity + b.force * b.invMass) * dt
      angularVelocity := b.angularVelocity + b.invMoi * b.torque * dt }

/-- The velocity-integration loop body of `World::step`:
`position += velocity * dt`, `rotation += angular_velocity * dt`, then the
force and torque accumulators are reset to zero. -/
def integrateVelocities (dt : ℝ) (b : Body) : Body :=
  { b with
    position := b.position + b.velocity * dt
    rotation := b.rotation + b.angularVelocity * dt
    force := Vec2.default
    torque := 0 }

/-- The arbiter pre-step pass of `World::step`. -/
def preStepArbiters (bodies : List Body) (arbiters : List (ArbiterKey × Arbiter))
    (invDt : ℝ) (ctx : WorldContext) :
    RustResult (List Body × List (ArbiterKey × Arbiter)) :=
  arbiters.foldlM
    (fun st kv =>
      RustResult.bind (Arbiter.preStep st.1 kv.2 invDt ctx)
        (fun res => .ok (res.1, st.2 ++ [(kv.1, res.2)])))
    (bodies, [])

/-- The joint pre-step pass of `World::step`. -/
def preStepJoints (bodies : List Body) (joints : List Joint)
    (ctx : WorldContext) (invDt : ℝ) : RustResult (List Body × List Joint) :=
  joints.foldlM
    (fun st j =>
      RustResult.bind (Joint.preStep st.1 j ctx invDt)
        (fun res => .ok (res.1, st.2 ++ [res.2])))
    (bodies, [])

/-- One solver iteration of `World::step`: `apply_impulse` on every arbiter,
then on every joint. -/
def solveIteration (ctx : WorldContext)
    (st : List Body × List (ArbiterKey × Arbiter) × List Joint) :
    RustResult (List Body × List (ArbiterKey × Arbiter) × List Joint) :=
  RustResult.bind
    (st.2.1.foldlM
      (fun acc kv =>
        RustResult.bind (Arbiter.applyImpulse acc.1 kv.2 ctx)
          (fun res => .ok (res.1, acc.2 ++ [(kv.1, res.2)])))
      (st.1, []))
    (fun afterArbiters =>
      RustResult.bind
        (st.2.2.foldlM
          (fun acc j =>
            RustResult.bind (Joint.applyImpulse acc.1 j)
              (fun res => .ok (res.1, acc.2 ++ [res.2])))
          (afterArbiters.1, []))
        (fun afterJoints => .ok (afterJoints.1, afterArbiters.2, afterJoints.2)))

/-- The fixed-count solver loop of `World::step`. -/
def solveLoop (ctx : WorldContext) :
    ℕ → (List Body × List (ArbiterKey × Arbiter) × List Joint) →
    RustResult (List Body × List (ArbiterKey × Arbiter) × List Joint)
  | 0, st => .ok st
  | Nat.succ k, st => RustResult.bind (solveIteration ctx st) (solveLoop ctx k)

/-- `World::step`: broad phase, force integration, arbiter/joint pre-steps,
`iterations` solver passes, velocity integration with force/torque reset —
in this exact order. -/
def World.step (w : World) (dt : ℝ) : RustResult World :=
  let invDt := World.stepInvDt dt
  RustResult.bind w.broadPhase (fun w1 =>
    let bodies1 := w1.bodies.map (integrateForces w1.gravity dt)
    RustResult.bind (preStepArbiters bodies1 w1.arbiters invDt w1.worldContext)
      (fun afterArbPre =>
        RustResult.bind (preStepJoints afterArbPre.1 w1.joints w1.worldContext invDt)
          (fun afterJointPre =>
            RustResult.bind
              (solveLoop w1.worldContext w1.iterations
                (afterJointPre.1, afterArbPre.2, afterJointPre.2))
              (fun solved =>
                let bodies5 := solved.1.map (integrateVelocities dt)
                .ok { w1 with
                  bodies := bodies5
                  arbiters := solved.2.1
                  joints := solved.2.2 }))))

/-! ## Test fixtures and specification-side descriptions -/

/-- A box body at a given position, as the repository tests construct them:
`Body::new` with the given width and mass 1, then the position set. -/
def testBox (pos w : Vec2) : Body :=
  { Body.new 0 w 1 with position := pos }

/-- The body fields `World::step` must leave untouched: id, width, friction,
mass, inverse mass, moment of inertia, inverse moment, vertices and shape. -/
def bodyFrame (b : Body) :
    ℕ × Vec2 × ℝ × ℝ × ℝ × ℝ × ℝ × List Vec2 × Shape :=
  (b.id, b.width, b.friction, b.mass, b.invMass, b.moi, b.invMoi, b.vertices, b.shape)

/-- The per-contact merge `Arbiter::update` performs, written directly: the
new contact keeps the accumulated impulses of the first old contact with the
same `FeaturePair` value (warm starting) or has them zeroed; with no match
it is kept unchanged. -/
def mergeContactSpec (oldContacts : List Contact) (warmStarting : Bool)
    (c : ContactInfo) : ContactInfo :=
  match oldContacts.find?
      (fun oc => oc.map (fun ci => ci.feature.value) = some c.feature.value) with
  | some (some cOld) =>
    if warmStarting then { c with pn := cOld.pn, pt := cOld.pt, pnb := cOld.pnb }
    else { c with pn := 0, pt := 0, pnb := 0 }
  | _ => c

/-! ## Helper lemmas -/

theorem Vec2.add_def (v w : Vec2) : v + w = ⟨v.x + w.x, v.y + w.y⟩ := rfl

theorem Vec2.sub_def (v w : Vec2) : v - w = ⟨v.x - w.x, v.y - w.y⟩ := rfl

theorem Vec2.neg_def (v : Vec2) : -v = ⟨-v.x, -v.y⟩ := rfl

theorem Vec2.smul_def (v : Vec2) (s : ℝ) : v * s = ⟨v.x * s, v.y * s⟩ := rfl

theorem Mat2x2.mulVec_def (m : Mat2x2) (v : Vec2) :
    m * v = ⟨m.col1.x * v.x + m.col2.x * v.y, m.col1.y * v.x + m.col2.y * v.y⟩ := rfl

/-! ## Claims about the math layer -/

/-- C1 (counterexample): at `θ = π/2` the first column of
`Mat2x2::new_from_angle θ` is `(cos θ, -sin θ) = (0, -1)`, not the claimed
`(cos θ, sin θ) = (0, 1)`. -/
theorem newFromAngle_col1_counterexample :
    (Mat2x2.newFromAngle (Real.pi / 2)).col1 ≠
      Vec2.new (Real.cos (Real.pi / 2)) (Real.sin (Real.pi / 2)) := by
  intro h
  have hy := congrArg Vec2.y h
  simp only [Mat2x2.newFromAngle, Vec2.new] at hy
  rw [Real.sin_pi_div_two] at hy
  norm_num at hy

/-- C1 (amended): `Mat2x2::new_from_angle θ` stores `col1 = (cos θ, -sin θ)`
and `col2 = (sin θ, cos θ)` — the transpose of the standard rotation matrix:
its `transpose` is the matrix with `col1 = (cos θ, sin θ)`,
`col2 = (-sin θ, cos θ)` that the claim describes. -/
theorem newFromAngle_is_transpose_of_standard (θ : ℝ) :
    Mat2x2.newFromAngle θ =
      ⟨Vec2.new (Real.cos θ) (-Real.sin θ), Vec2.new (Real.sin θ) (Real.cos θ)⟩ ∧
    (Mat2x2.newFromAngle θ).transpose =
      ⟨Vec2.new (Real.cos θ) (Real.sin θ), Vec2.new (-Real.sin θ) (Real.cos θ)⟩ :=
  ⟨rfl, rfl⟩

/-- C6: inverting the rotation matrix of `θ` gives exactly the rotation
matrix of `-θ` (the source's determinant of a rotation matrix is
`cos²θ + sin²θ = 1`, so the assertion never fires and the det-scaled
adjugate coincides with the true inverse). -/
theorem newFromAngle_invert_neg_angle (θ : ℝ) :
    (Mat2x2.newFromAngle θ).invert = RustResult.ok (Mat2x2.newFromAngle (-θ)) := by
  have hdet : Real.cos θ * Real.cos θ - Real.sin θ * -Real.sin θ = 1 := by
    have h := Real.sin_sq_add_cos_sq θ
    nlinarith [h]
  simp only [Mat2x2.invert, Mat2x2.newFromAngle, Vec2.new, hdet]
  rw [if_neg one_ne_zero]
  simp [Real.cos_neg, Real.sin_neg]

/-- C7: at the singular matrix with columns `(1, 2)` and `(2, 4)`
(determinant `1*4 - 2*2 = 0`), `Mat2x2::invert` aborts through its
assertion (a panic, not a typed error), with the source's message. -/
theorem invert_singular_matrix_aborts :
    Mat2x2.invert ⟨Vec2.new 1 2, Vec2.new 2 4⟩ =
      RustResult.panicked ("Can\x27t invert Matrix with 0 determinant.") := by
  simp only [Mat2x2.invert, Vec2.new]
  norm_num

/-- C8 (counterexample): `Body::new` with zero or negative mass and
`Body::new_polygon` with an empty vertex list do not fail: like the Rust
constructors (whose return type is `Body`, with no failure path), the
embedded constructors return a fully constructed body, storing the invalid
mass/vertex list unclamped. -/
theorem body_new_accepts_invalid_inputs :
    (Body.new 1 (Vec2.new 2 2) 0).mass = 0 ∧
    (Body.new 1 (Vec2.new 2 2) (-5)).mass = -5 ∧
    (Body.newPolygon 2 [] 0).mass = 0 ∧
    (Body.newPolygon 2 [] 0).vertices = [] :=
  ⟨rfl, rfl, rfl, rfl⟩

/-- C8 (amended): `Body::new` and `Body::new_polygon` perform no input
validation at all: for every width, vertex list and mass — zero and
negative masses and empty vertex lists included — they return a constructed
body that stores the arguments unchanged. -/
theorem body_new_no_validation (i : ℕ) (width : Vec2) (vertices : List Vec2) (mass : ℝ) :
    (Body.new i width mass).mass = mass ∧
    (Body.new i width mass).width = width ∧
    (Body.newPolygon i vertices mass).mass = mass ∧
    (Body.newPolygon i vertices mass).vertices = vertices :=
  ⟨rfl, rfl, rfl, rfl⟩

/-! ## C10: the shifted polygon accessors -/

theorem getVertex_eq_succ_mod (p : ConvexPolygon) (i : ℤ) (hn : 1 ≤ p.vertices.length)
    (h0 : 0 ≤ i) :
    p.getVertex i =
      p.vertices.getD (((i + 1) % (p.vertices.length : ℤ)).toNat) Vec2.default := by
  have hnpos : (0 : ℤ) ≤ (p.vertices.length : ℤ) := by positivity
  show p.vertices.getD
    ((Int.tmod (i + (p.vertices.length : ℤ) + 1) (p.vertices.length : ℤ)).toNat)
    Vec2.default = _
  rw [Int.tmod_eq_emod (by linarith) hnpos,
    show i + (p.vertices.length : ℤ) + 1 = (i + 1) + (p.vertices.length : ℤ) by ring,
    Int.add_emod_self]

/-- C10: for a polygon with `n ≥ 1` stored vertices and `0 ≤ i ≤ n-1`,
`get_vertex i` returns the stored vertex at position `(i+1) mod n` (so
`get_vertex 0` is the second stored vertex when `n ≥ 2`, and
`get_vertex (n-1)` is the first), and `get_edge`/`get_normal` are shifted by
the same one-position offset: `get_edge i` runs from stored vertex
`(i+1) mod n` to stored vertex `(i+2) mod n`. -/
theorem getVertex_shifted_by_one (p : ConvexPolygon) (i : ℤ)
    (hn : 1 ≤ p.vertices.length) (h0 : 0 ≤ i)
    (h1 : i ≤ (p.vertices.length : ℤ) - 1) :
    p.getVertex i =
      p.vertices.getD (((i + 1) % (p.vertices.length : ℤ)).toNat) Vec2.default ∧
    p.getEdge i =
      p.vertices.getD (((i + 2) % (p.vertices.length : ℤ)).toNat) Vec2.default -
        p.vertices.getD (((i + 1) % (p.vertices.length : ℤ)).toNat) Vec2.default ∧
    p.getNormal i =
      ⟨(p.vertices.getD (((i + 2) % (p.vertices.length : ℤ)).toNat) Vec2.default -
          p.vertices.getD (((i + 1) % (p.vertices.length : ℤ)).toNat) Vec2.default).y,
        -(p.vertices.getD (((i + 2) % (p.vertices.length : ℤ)).toNat) Vec2.default -
          p.vertices.getD (((i + 1) % (p.vertices.length : ℤ)).toNat) Vec2.default).x⟩ ∧
    (2 ≤ p.vertices.length → p.getVertex 0 = p.vertices.getD 1 Vec2.default) ∧
    p.getVertex ((p.vertices.length : ℤ) - 1) = p.vertices.getD 0 Vec2.default := by
  have hv := getVertex_eq_succ_mod p i hn h0
  have hv1 := getVertex_eq_succ_mod p (i + 1) hn (by linarith)
  have hv1' : p.getVertex (i + 1) =
      p.vertices.getD (((i + 2) % (p.vertices.length : ℤ)).toNat) Vec2.default := by
    rw [hv1, show i + 1 + 1 = i + 2 by ring]
  refine ⟨hv, ?_, ?_, ?_, ?_⟩
  · unfold ConvexPolygon.getEdge
    rw [hv, hv1']
  · unfold ConvexPolygon.getNormal ConvexPolygon.getEdge
    rw [hv, hv1']
  · intro h2
    rw [getVertex_eq_succ_mod p 0 hn le_rfl]
    have h01 : ((0 : ℤ) + 1) % (p.vertices.length : ℤ) = 1 := by
      have he : ((0 : ℤ) + 1) = 1 := by norm_num
      rw [he, Int.emod_eq_of_lt (by norm_num) (by exact_mod_cast h2)]
    rw [h01]
    rfl
  · rw [getVertex_eq_succ_mod p _ hn (by linarith)]
    have : ((p.vertices.length : ℤ) - 1 + 1) % (p.vertices.length : ℤ) = 0 := by
      simp
    rw [this]
    rfl

/-- C10 (witness): the shifted accessors evaluated on the concrete triangle
`[(0,0), (1,0), (0,1)]` at index `1`. -/
theorem getVertex_shifted_by_one_witness :
    1 ≤ (ConvexPolygon.new [Vec2.new 0 0, Vec2.new 1 0, Vec2.new 0 1]).vertices.length ∧
    (0 : ℤ) ≤ 1 ∧
    (1 : ℤ) ≤ ((ConvexPolygon.new [Vec2.new 0 0, Vec2.new 1 0, Vec2.new 0 1]).vertices.length : ℤ) - 1 ∧
    (ConvexPolygon.new [Vec2.new 0 0, Vec2.new 1 0, Vec2.new 0 1]).getVertex 1 =
      (ConvexPolygon.new [Vec2.new 0 0, Vec2.new 1 0, Vec2.new 0 1]).vertices.getD
        ((((1 : ℤ) + 1) %
          (((ConvexPolygon.new [Vec2.new 0 0, Vec2.new 1 0, Vec2.new 0 1]).vertices.length : ℤ))).toNat)
        Vec2.default :=
  ⟨by norm_num [ConvexPolygon.new], by norm_num, by norm_num [ConvexPolygon.new],
    (getVertex_shifted_by_one (ConvexPolygon.new [Vec2.new 0 0, Vec2.new 1 0, Vec2.new 0 1]) 1
      (by norm_num [ConvexPolygon.new]) (by norm_num)
      (by norm_num [ConvexPolygon.new])).1⟩

/-! ## C5: Arbiter::update merge semantics -/

theorem updateMergeLoop_eq (old : List Contact) (ws : Bool) (l : List Contact) :
    updateMergeLoop old ws l =
      Except.ok (l.filterMap (fun nc => nc.map (fun c => some (mergeContactSpec old ws c)))) := by
  induction l with
  | nil => rfl
  | cons nc rest ih =>
    cases nc with
    | none => simpa [updateMergeLoop] using ih
    | some c =>
      rcases hfind : old.find?
          (fun oc => oc.map (fun ci => ci.feature.value) = some c.feature.value)
        with _ | oldSlot
      · have hm : mergeContactSpec old ws c = c := by
          unfold mergeContactSpec
          rw [hfind]
        simp only [updateMergeLoop]
        rw [hfind, ih]
        simp only [Except.map, List.filterMap_cons, Option.map_some', hm]
      · cases oldSlot with
        | none =>
          have hp := List.find?_some hfind
          simp at hp
        | some cOld =>
          have hm : mergeContactSpec old ws c =
              (if ws then { c with pn := cOld.pn, pt := cOld.pt, pnb := cOld.pnb }
               else { c with pn := 0, pt := 0, pnb := 0 }) := by
            unfold mergeContactSpec
            rw [hfind]
          simp only [updateMergeLoop]
          rw [hfind, ih]
          simp only [Except.map, List.filterMap_cons, Option.map_some', hm]

theorem acceptContact_zero_impulse (axis : Axis) (normal frontNormal : Vec2)
    (front : ℝ) (cp : ClipVertex) (oc : Contact)
    (hf : acceptContact axis normal frontNormal front cp = some oc) :
    ∃ ci : ContactInfo, oc = some ci ∧ ci.pn = 0 ∧ ci.pt = 0 ∧ ci.pnb = 0 := by
  unfold acceptContact at hf
  dsimp only at hf
  split at hf
  · injection hf with hf2
    exact ⟨_, hf2.symm, rfl, rfl, rfl⟩
  · exact Option.noConfusion hf

theorem collide_contacts_zero_impulse (a b : Body) (oc : Contact)
    (hmem : oc ∈ collide a b) :
    ∃ ci : ContactInfo, oc = some ci ∧ ci.pn = 0 ∧ ci.pt = 0 ∧ ci.pnb = 0 := by
  unfold collide at hmem
  dsimp only at hmem
  split at hmem
  · simp at hmem
  · split at hmem
    · simp at hmem
    · unfold collidePost at hmem
      dsimp only at hmem
      split at hmem
      · split at hmem
        · rcases List.mem_filterMap.mp hmem with ⟨cp, _, hf⟩
          exact acceptContact_zero_impulse _ _ _ _ _ _ hf
        · simp at hmem
      · simp at hmem

/-- C5: `Arbiter::update` always succeeds and replaces the manifold by the
merged new contacts with `num_contacts` set to the passed new-contact count;
merging keeps the matched old contact's accumulated impulses `pn`, `pt`,
`pnb` under warm starting and zeroes them otherwise, and keeps an unmatched
new contact unchanged — in particular with the zero accumulated impulses
every contact produced by `collide` carries (last conjunct). -/
theorem arbiter_update_merges (arb : Arbiter) (newContacts : List Contact)
    (numNew : ℤ) (ctx : WorldContext) :
    arb.update newContacts numNew ctx =
      Except.ok
        { arb with
          contacts := newContacts.filterMap
            (fun nc => nc.map (fun c => some (mergeContactSpec arb.contacts ctx.warmStarting c)))
          numContacts := numNew } ∧
    (∀ (c cOld : ContactInfo) (ws : Bool),
      arb.contacts.find?
          (fun oc => oc.map (fun ci => ci.feature.value) = some c.feature.value) =
        some (some cOld) →
      mergeContactSpec arb.contacts ws c =
        (if ws then { c with pn := cOld.pn, pt := cOld.pt, pnb := cOld.pnb }
         else { c with pn := 0, pt := 0, pnb := 0 })) ∧
    (∀ (c : ContactInfo) (ws : Bool),
      arb.contacts.find?
          (fun oc => oc.map (fun ci => ci.feature.value) = some c.feature.value) = none →
      mergeContactSpec arb.contacts ws c = c) ∧
    (∀ (bodyA bodyB : Body) (oc : Contact), oc ∈ collide bodyA bodyB →
      ∃ ci : ContactInfo, oc = some ci ∧ ci.pn = 0 ∧ ci.pt = 0 ∧ ci.pnb = 0) := by
  refine ⟨?_, ?_, ?_, ?_⟩
  · unfold Arbiter.update
    rw [updateMergeLoop_eq]
    rfl
  · intro c cOld ws hfind
    unfold mergeContactSpec
    rw [hfind]
  · intro c ws hfind
    unfold mergeContactSpec
    rw [hfind]
  · exact collide_contacts_zero_impulse

/-- C5 (witness): a concrete update — one old contact with feature value 5
and accumulated impulses (7, 8, 9), one new contact with the same feature
value, warm starting on — keeps the old impulses. -/
theorem arbiter_update_merges_witness :
    Arbiter.update
      { body1 := 0, body2 := 1, friction := 0, numContacts := 1,
        contacts := [some { ContactInfo.default with
          feature := FeaturePair.new Edges.default 5, pn := 7, pt := 8, pnb := 9 }] }
      [some { ContactInfo.default with feature := FeaturePair.new Edges.default 5 }] 1
      { accumulateImpulse := true, warmStarting := true, positionCorrection := true } =
      Except.ok
        { body1 := 0, body2 := 1, friction := 0, numContacts := 1,
          contacts := [some { ContactInfo.default with
            feature := FeaturePair.new Edges.default 5, pn := 7, pt := 8, pnb := 9 }] } := by
  rw [(arbiter_update_merges _ _ _ _).1]
  rfl

/-! ## C3: the rejection fast path -/

theorem Mat2x2.mulMat_def (m n : Mat2x2) : m * n = ⟨m * n.col1, m * n.col2⟩ := rfl

theorem collideFaceA_aligned (a b : Body) (ha : a.rotation = 0) (hb : b.rotation = 0) :
    collideFaceA a b =
      ⟨|b.position.x - a.position.x| - a.width.x * 0.5 - b.width.x * 0.5,
        |b.position.y - a.position.y| - a.width.y * 0.5 - b.width.y * 0.5⟩ := by
  unfold collideFaceA
  rw [ha, hb]
  simp [Mat2x2.newFromAngle, Mat2x2.transpose, Mat2x2.abs, Vec2.abs, Vec2.new,
    Mat2x2.mulVec_def, Mat2x2.mulMat_def, Vec2.sub_def, Vec2.smul_def, Vec2.add_def,
    Real.cos_zero, Real.sin_zero]

theorem collideFaceB_aligned (a b : Body) (ha : a.rotation = 0) (hb : b.rotation = 0) :
    collideFaceB a b =
      ⟨|b.position.x - a.position.x| - a.width.x * 0.5 - b.width.x * 0.5,
        |b.position.y - a.position.y| - a.width.y * 0.5 - b.width.y * 0.5⟩ := by
  unfold collideFaceB
  rw [ha, hb]
  simp [Mat2x2.newFromAngle, Mat2x2.transpose, Mat2x2.abs, Vec2.abs, Vec2.new,
    Mat2x2.mulVec_def, Mat2x2.mulMat_def, Vec2.sub_def, Vec2.smul_def, Vec2.add_def,
    Real.cos_zero, Real.sin_zero]
  constructor <;> ring

/-- C3: if any of the four candidate separating axes shows positive
separation (a positive component of `face_a` or `face_b`), `collide`
returns no contacts — these two tests are the first thing `collide` does
after computing the faces, before any axis selection or clipping (see the
definition of `collide`, which only calls `collidePost` when both tests
fail).  In particular, two axis-aligned boxes separated along either axis
by more than the sum of their half-widths produce no contacts. -/
theorem collide_separation_rejects (a b : Body) :
    ((collideFaceA a b).x > 0 ∨ (collideFaceA a b).y > 0 ∨
      (collideFaceB a b).x > 0 ∨ (collideFaceB a b).y > 0 →
      collide a b = []) ∧
    (a.rotation = 0 → b.rotation = 0 →
      (|b.position.x - a.position.x| > (a.width.x + b.width.x) / 2 ∨
        |b.position.y - a.position.y| > (a.width.y + b.width.y) / 2) →
      collide a b = []) := by
  have hpart1 : (collideFaceA a b).x > 0 ∨ (collideFaceA a b).y > 0 ∨
      (collideFaceB a b).x > 0 ∨ (collideFaceB a b).y > 0 → collide a b = [] := by
    intro h
    unfold collide
    dsimp only
    by_cases h1 : (collideFaceA a b).x > 0 ∨ (collideFaceA a b).y > 0
    · rw [if_pos h1]
    · rw [if_neg h1, if_pos (by tauto)]
  refine ⟨hpart1, ?_⟩
  intro ha hb hsep
  apply hpart1
  rw [collideFaceA_aligned a b ha hb]
  rcases hsep with h | h
  · left
    show |b.position.x - a.position.x| - a.width.x * 0.5 - b.width.x * 0.5 > 0
    have he : a.width.x * 0.5 + b.width.x * 0.5 = (a.width.x + b.width.x) / 2 := by ring
    linarith
  · right; left
    show |b.position.y - a.position.y| - a.width.y * 0.5 - b.width.y * 0.5 > 0
    have he : a.width.y * 0.5 + b.width.y * 0.5 = (a.width.y + b.width.y) / 2 := by ring
    linarith

/-- C3 (witness): two axis-aligned 2×2 boxes with centers 10 apart along x
(beyond the sum of half-widths, 2) produce no contacts. -/
theorem collide_separation_rejects_witness :
    (testBox (Vec2.new 0 0) (Vec2.new 2 2)).rotation = 0 ∧
    (testBox (Vec2.new 10 0) (Vec2.new 2 2)).rotation = 0 ∧
    |(testBox (Vec2.new 10 0) (Vec2.new 2 2)).position.x -
        (testBox (Vec2.new 0 0) (Vec2.new 2 2)).position.x| >
      ((testBox (Vec2.new 0 0) (Vec2.new 2 2)).width.x +
        (testBox (Vec2.new 10 0) (Vec2.new 2 2)).width.x) / 2 ∧
    collide (testBox (Vec2.new 0 0) (Vec2.new 2 2)) (testBox (Vec2.new 10 0) (Vec2.new 2 2)) = [] := by
  have h1 : (testBox (Vec2.new 0 0) (Vec2.new 2 2)).rotation = 0 := rfl
  have h2 : (testBox (Vec2.new 10 0) (Vec2.new 2 2)).rotation = 0 := rfl
  have h3 : |(testBox (Vec2.new 10 0) (Vec2.new 2 2)).position.x -
        (testBox (Vec2.new 0 0) (Vec2.new 2 2)).position.x| >
      ((testBox (Vec2.new 0 0) (Vec2.new 2 2)).width.x +
        (testBox (Vec2.new 10 0) (Vec2.new 2 2)).width.x) / 2 := by
    show |(10 : ℝ) - 0| > ((2 : ℝ) + 2) / 2
    norm_num
  exact ⟨h1, h2, h3,
    (collide_separation_rejects _ _).2 h1 h2 (Or.inl h3)⟩

/-! ## C4: two contacts for overlapping equal axis-aligned boxes -/

theorem Vec2.dot_def (v w : Vec2) : v.dot w = v.x * w.x + v.y * w.y := rfl

theorem Vec2.neg_dot (v w : Vec2) : (-v).dot w = -(v.dot w) := by
  simp only [Vec2.dot_def, Vec2.neg_def]
  ring

theorem Vec2.dot_affine (f a b : Vec2) (t : ℝ) :
    f.dot (a + (b - a) * t) = f.dot a + (f.dot b - f.dot a) * t := by
  simp only [Vec2.dot_def, Vec2.add_def, Vec2.sub_def, Vec2.smul_def]
  ring

theorem convex_nonpos (x y t : ℝ) (hx : x ≤ 0) (hy : y ≤ 0) (h0 : 0 ≤ t) (h1 : t ≤ 1) :
    x + (y - x) * t ≤ 0 := by nlinarith

/-- Characterisation of `clip_segment_to_line` when at least one endpoint is
strictly behind the plane: exactly two points come out; each is an affine
point of the input segment with parameter in `[0, 1]` and lies behind the
plane; and either both input points survive unchanged, or the second output
lies exactly on the clipping line. -/
theorem clipSegmentToLine_two (p0 p1 : ClipVertex) (nrm : Vec2) (off : ℝ)
    (e : EdgeNumbers)
    (h : nrm.dot p0.v - off < 0 ∨ nrm.dot p1.v - off < 0) :
    ∃ (q0 q1 : ClipVertex) (t0 t1 : ℝ),
      clipSegmentToLine (p0, p1) nrm off e = [q0, q1] ∧
      0 ≤ t0 ∧ t0 ≤ 1 ∧ q0.v = p0.v + (p1.v - p0.v) * t0 ∧
      0 ≤ t1 ∧ t1 ≤ 1 ∧ q1.v = p0.v + (p1.v - p0.v) * t1 ∧
      nrm.dot q0.v - off ≤ 0 ∧ nrm.dot q1.v - off ≤ 0 ∧
      ((q0 = p0 ∧ q1 = p1) ∨ nrm.dot q1.v = off) := by
  have hv0 : p0.v = p0.v + (p1.v - p0.v) * (0 : ℝ) := by
    simp [Vec2.add_def, Vec2.sub_def, Vec2.smul_def]
  have hv1 : p1.v = p0.v + (p1.v - p0.v) * (1 : ℝ) := by
    simp [Vec2.add_def, Vec2.sub_def, Vec2.smul_def]
  by_cases hd0 : nrm.dot p0.v - off ≤ 0
  · by_cases hd1 : nrm.dot p1.v - off ≤ 0
    · -- both kept, no crossing point
      refine ⟨p0, p1, (0 : ℝ), (1 : ℝ), ?_, le_rfl, zero_le_one, hv0, zero_le_one, le_rfl, hv1,
        hd0, hd1, Or.inl ⟨rfl, rfl⟩⟩
      unfold clipSegmentToLine
      dsimp only
      rw [if_pos hd0, if_pos hd1, if_neg (by nlinarith)]
      rfl
    · -- p0 kept, segment crosses the plane
      push_neg at hd1
      have hd0' : nrm.dot p0.v - off < 0 := by
        rcases h with h | h
        · exact h
        · linarith
      set d0 := nrm.dot p0.v - off with hd0def
      set d1 := nrm.dot p1.v - off with hd1def
      have hden : d0 - d1 < 0 := by linarith
      have hrw : d0 / (d0 - d1) = (-d0) / (d1 - d0) := by
        rw [show d1 - d0 = -(d0 - d1) by ring, neg_div_neg_eq]
      have ht0 : 0 ≤ d0 / (d0 - d1) := by
        rw [hrw]
        exact div_nonneg (by linarith) (by linarith)
      have ht1 : d0 / (d0 - d1) ≤ 1 := by
        rw [hrw, div_le_one (by linarith)]
        linarith
      have hne : d0 - d1 ≠ 0 := by linarith
      have hint : nrm.dot (p0.v + (p1.v - p0.v) * (d0 / (d0 - d1))) = off := by
        rw [Vec2.dot_affine]
        have hdiff : nrm.dot p1.v - nrm.dot p0.v = -(d0 - d1) := by
          rw [hd0def, hd1def]; ring
        have h3 : -(d0 - d1) * (d0 / (d0 - d1)) = -d0 := by
          field_simp
          ring
        rw [hdiff, h3, hd0def]
        ring
      refine ⟨p0,
        ⟨{ p1.fp with edges :=
            { p1.fp.edges with outEdge1 := e, outEdge2 := EdgeNumbers.noEdge } },
          p0.v + (p1.v - p0.v) * (d0 / (d0 - d1))⟩,
        0, d0 / (d0 - d1), ?_, le_rfl, zero_le_one, hv0, ht0, ht1, rfl, hd0,
        by rw [hint]; linarith, Or.inr hint⟩
      unfold clipSegmentToLine
      dsimp only
      rw [if_pos hd0, if_neg (by linarith), if_pos (by nlinarith), if_neg (by linarith)]
      rfl
  · -- p0 dropped; p1 must be strictly inside
    push_neg at hd0
    have hd1' : nrm.dot p1.v - off < 0 := by
      rcases h with h | h
      · linarith
      · exact h
    set d0 := nrm.dot p0.v - off with hd0def
    set d1 := nrm.dot p1.v - off with hd1def
    have hden : 0 < d0 - d1 := by linarith
    have ht0 : 0 ≤ d0 / (d0 - d1) := by positivity
    have ht1 : d0 / (d0 - d1) ≤ 1 := by
      rw [div_le_one hden]
      linarith
    have hne : d0 - d1 ≠ 0 := by linarith
    have hint : nrm.dot (p0.v + (p1.v - p0.v) * (d0 / (d0 - d1))) = off := by
      rw [Vec2.dot_affine]
      have hdiff : nrm.dot p1.v - nrm.dot p0.v = -(d0 - d1) := by
        rw [hd0def, hd1def]; ring
      have h3 : -(d0 - d1) * (d0 / (d0 - d1)) = -d0 := by
        field_simp
        ring
      rw [hdiff, h3, hd0def]
      ring
    refine ⟨p1,
      ⟨{ p0.fp with edges :=
          { p0.fp.edges with inEdge1 := e, inEdge2 := EdgeNumbers.noEdge } },
        p0.v + (p1.v - p0.v) * (d0 / (d0 - d1))⟩,
      1, d0 / (d0 - d1), ?_, zero_le_one, le_rfl, hv1, ht0, ht1, rfl,
      by linarith, by rw [hint]; linarith, Or.inr hint⟩
    unfold clipSegmentToLine
    dsimp only
    rw [if_neg (by linarith), if_pos (by linarith), if_pos (by nlinarith), if_pos (by linarith)]
    rfl

theorem acceptContact_accepts (axis : Axis) (nrm fN : Vec2) (fr : ℝ) (cp : ClipVertex)
    (h : fN.dot cp.v - fr ≤ 0) :
    ∃ ci : ContactInfo,
      acceptContact axis nrm fN fr cp = some (some ci) ∧
      ci.separation = fN.dot cp.v - fr ∧ ci.normal = nrm := by
  unfold acceptContact
  dsimp only
  rw [if_pos h]
  exact ⟨_, rfl, rfl, rfl⟩

/-- The clipping-and-acceptance stage of `collide` on a reference face with
side slab `[-negSide, posSide]` of positive width: when both incident-edge
endpoints are behind the reference face and each side plane has at least one
endpoint strictly behind it, both clips keep two points and both surviving
points are accepted, giving exactly two contacts with non-positive
separation and the selected normal. -/
theorem clip_accept_two (p0 p1 : ClipVertex) (s fN : Vec2) (ns psd fr : ℝ)
    (eNeg ePos : EdgeNumbers) (axis : Axis) (nrm : Vec2)
    (hD0 : fN.dot p0.v - fr ≤ 0) (hD1 : fN.dot p1.v - fr ≤ 0)
    (hsum : 0 < ns + psd)
    (h1 : (-s).dot p0.v - ns < 0 ∨ (-s).dot p1.v - ns < 0)
    (h2 : s.dot p0.v - psd < 0 ∨ s.dot p1.v - psd < 0) :
    ∃ (q0 q1 r0 r1 : ClipVertex) (c0 c1 : ContactInfo),
      clipSegmentToLine (p0, p1) (-s) ns eNeg = [q0, q1] ∧
      clipSegmentToLine (q0, q1) s psd ePos = [r0, r1] ∧
      [r0, r1].filterMap (acceptContact axis nrm fN fr) = [some c0, some c1] ∧
      c0.separation ≤ 0 ∧ c1.separation ≤ 0 ∧ c0.normal = nrm ∧ c1.normal = nrm := by
  obtain ⟨q0, q1, t0, t1, hclip1, ht00, ht01, hq0v, ht10, ht11, hq1v, _, _, hdisj⟩ :=
    clipSegmentToLine_two p0 p1 (-s) ns eNeg h1
  -- front-face distances propagate to convex combinations
  have hflin : ∀ (t : ℝ), 0 ≤ t → t ≤ 1 →
      fN.dot (p0.v + (p1.v - p0.v) * t) - fr ≤ 0 := by
    intro t ha hb
    rw [Vec2.dot_affine]
    have := convex_nonpos (fN.dot p0.v - fr) (fN.dot p1.v - fr) t hD0 hD1 ha hb
    linarith
  have hDq0 : fN.dot q0.v - fr ≤ 0 := by rw [hq0v]; exact hflin t0 ht00 ht01
  have hDq1 : fN.dot q1.v - fr ≤ 0 := by rw [hq1v]; exact hflin t1 ht10 ht11
  -- the second clip has a strictly-inside point
  have h2' : s.dot q0.v - psd < 0 ∨ s.dot q1.v - psd < 0 := by
    rcases hdisj with ⟨he0, he1⟩ | honline
    · rw [he0, he1]
      exact h2
    · right
      rw [Vec2.neg_dot] at honline
      linarith
  obtain ⟨r0, r1, u0, u1, hclip2, hu00, hu01, hr0v, hu10, hu11, hr1v, _, _, _⟩ :=
    clipSegmentToLine_two q0 q1 s psd ePos h2'
  have hglin : ∀ (u : ℝ), 0 ≤ u → u ≤ 1 →
      fN.dot (q0.v + (q1.v - q0.v) * u) - fr ≤ 0 := by
    intro u ha hb
    rw [Vec2.dot_affine]
    have := convex_nonpos (fN.dot q0.v - fr) (fN.dot q1.v - fr) u hDq0 hDq1 ha hb
    linarith
  have hDr0 : fN.dot r0.v - fr ≤ 0 := by rw [hr0v]; exact hglin u0 hu00 hu01
  have hDr1 : fN.dot r1.v - fr ≤ 0 := by rw [hr1v]; exact hglin u1 hu10 hu11
  obtain ⟨c0, hc0, hc0sep, hc0n⟩ := acceptContact_accepts axis nrm fN fr r0 hDr0
  obtain ⟨c1, hc1, hc1sep, hc1n⟩ := acceptContact_accepts axis nrm fN fr r1 hDr1
  refine ⟨q0, q1, r0, r1, c0, c1, hclip1, hclip2, ?_, ?_, ?_, hc0n, hc1n⟩
  · simp [List.filterMap_cons, hc0, hc1]
  · rw [hc0sep]; exact hDr0
  · rw [hc1sep]; exact hDr1

theorem newFromAngle_zero : Mat2x2.newFromAngle 0 = ⟨Vec2.new 1 0, Vec2.new 0 1⟩ := by
  simp [Mat2x2.newFromAngle, Vec2.new]

/-- Axis selection for overlapping axis-aligned equal-size boxes: the biased
tie-break can only pick one of body A's two axes (`face_b` equals `face_a`,
so the B-axis switches would need `0.05·face > 0.01·half_width`, impossible
for non-positive penetration), with the corresponding cardinal normal. -/
theorem collideAxis_aligned_equal (a b : Body)
    (ha : a.rotation = 0) (hb : b.rotation = 0) (hw : b.width = a.width)
    (hwx : 0 < a.width.x) (hwy : 0 < a.width.y)
    (hox : |b.position.x - a.position.x| < a.width.x)
    (hoy : |b.position.y - a.position.y| < a.width.y) :
    collideAxis a b = (Axis.faceAX, (collideFaceA a b).x,
      if b.position.x - a.position.x > 0 then Vec2.new 1 0 else Vec2.new (-1) 0) ∨
    collideAxis a b = (Axis.faceAY, (collideFaceA a b).y,
      if b.position.y - a.position.y > 0 then Vec2.new 0 1 else Vec2.new 0 (-1)) := by
  have hFa := collideFaceA_aligned a b ha hb
  have hFb := collideFaceB_aligned a b ha hb
  have hFx : (collideFaceA a b).x =
      |b.position.x - a.position.x| - a.width.x * 0.5 - b.width.x * 0.5 := by rw [hFa]
  have hFy : (collideFaceA a b).y =
      |b.position.y - a.position.y| - a.width.y * 0.5 - b.width.y * 0.5 := by rw [hFa]
  have hGx : (collideFaceB a b).x = (collideFaceA a b).x := by rw [hFa, hFb]
  have hGy : (collideFaceB a b).y = (collideFaceA a b).y := by rw [hFa, hFb]
  have hbwx : b.width.x = a.width.x := by rw [hw]
  have hbwy : b.width.y = a.width.y := by rw [hw]
  have hFxneg : (collideFaceA a b).x < 0 := by
    rw [hFx, hbwx]; linarith
  have hFyneg : (collideFaceA a b).y < 0 := by
    rw [hFy, hbwy]; linarith
  unfold collideAxis
  rw [ha, hb, newFromAngle_zero]
  simp only [Mat2x2.transpose, Mat2x2.mulVec_def, Vec2.sub_def, Vec2.smul_def,
    Vec2.neg_def, Vec2.new, one_mul, zero_mul, mul_zero, mul_one, add_zero, zero_add,
    neg_zero, neg_neg, relativeTol, absoluteTol]
  by_cases hsw : (collideFaceA a b).y >
      0.95 * (collideFaceA a b).x + 0.01 * (a.width.y * 0.5)
  · rw [if_pos hsw]
    try dsimp only
    have hc3 : ¬((collideFaceB a b).x >
        0.95 * (collideFaceA a b).y + 0.01 * (b.width.x * 0.5)) := by
      rw [hGx, hbwx]
      push_neg
      linarith
    rw [if_neg hc3]
    try dsimp only
    have hc4 : ¬((collideFaceB a b).y >
        0.95 * (collideFaceA a b).y + 0.01 * (b.width.y * 0.5)) := by
      rw [hGy, hbwy]
      push_neg
      linarith
    rw [if_neg hc4]
    right
    rfl
  · rw [if_neg hsw]
    try dsimp only
    have hc3 : ¬((collideFaceB a b).x >
        0.95 * (collideFaceA a b).x + 0.01 * (b.width.x * 0.5)) := by
      rw [hGx, hbwx]
      push_neg
      linarith
    rw [if_neg hc3]
    try dsimp only
    have hc4 : ¬((collideFaceB a b).y >
        0.95 * (collideFaceA a b).x + 0.01 * (b.width.y * 0.5)) := by
      rw [hGy, hbwy]
      push_neg
      push_neg at hsw
      linarith
    rw [if_neg hc4]
    left
    rfl

theorem computeIncidentEdge_px (h pos : Vec2) :
    (computeIncidentEdge h pos ⟨Vec2.new 1 0, Vec2.new 0 1⟩ (Vec2.new 1 0)).1.v =
      Vec2.new (pos.x + -h.x) (pos.y + h.y) ∧
    (computeIncidentEdge h pos ⟨Vec2.new 1 0, Vec2.new 0 1⟩ (Vec2.new 1 0)).2.v =
      Vec2.new (pos.x + -h.x) (pos.y + -h.y) := by
  unfold computeIncidentEdge
  norm_num [rustSignum, Mat2x2.transpose, Mat2x2.mulVec_def, Vec2.neg_def, Vec2.abs,
    Vec2.new, Vec2.add_def, incidentClipVertex]

theorem computeIncidentEdge_nx (h pos : Vec2) :
    (computeIncidentEdge h pos ⟨Vec2.new 1 0, Vec2.new 0 1⟩ (Vec2.new (-1) 0)).1.v =
      Vec2.new (pos.x + h.x) (pos.y + -h.y) ∧
    (computeIncidentEdge h pos ⟨Vec2.new 1 0, Vec2.new 0 1⟩ (Vec2.new (-1) 0)).2.v =
      Vec2.new (pos.x + h.x) (pos.y + h.y) := by
  unfold computeIncidentEdge
  norm_num [rustSignum, Mat2x2.transpose, Mat2x2.mulVec_def, Vec2.neg_def, Vec2.abs,
    Vec2.new, Vec2.add_def, incidentClipVertex]

theorem computeIncidentEdge_py (h pos : Vec2) :
    (computeIncidentEdge h pos ⟨Vec2.new 1 0, Vec2.new 0 1⟩ (Vec2.new 0 1)).1.v =
      Vec2.new (pos.x + -h.x) (pos.y + -h.y) ∧
    (computeIncidentEdge h pos ⟨Vec2.new 1 0, Vec2.new 0 1⟩ (Vec2.new 0 1)).2.v =
      Vec2.new (pos.x + h.x) (pos.y + -h.y) := by
  unfold computeIncidentEdge
  norm_num [rustSignum, Mat2x2.transpose, Mat2x2.mulVec_def, Vec2.neg_def, Vec2.abs,
    Vec2.new, Vec2.add_def, incidentClipVertex]

theorem computeIncidentEdge_ny (h pos : Vec2) :
    (computeIncidentEdge h pos ⟨Vec2.new 1 0, Vec2.new 0 1⟩ (Vec2.new 0 (-1))).1.v =
      Vec2.new (pos.x + h.x) (pos.y + h.y) ∧
    (computeIncidentEdge h pos ⟨Vec2.new 1 0, Vec2.new 0 1⟩ (Vec2.new 0 (-1))).2.v =
      Vec2.new (pos.x + -h.x) (pos.y + h.y) := by
  unfold computeIncidentEdge
  norm_num [rustSignum, Mat2x2.transpose, Mat2x2.mulVec_def, Vec2.neg_def, Vec2.abs,
    Vec2.new, Vec2.add_def, incidentClipVertex]

/-- Assembly of `collidePost`: with the axis-selection result given and the
clipping hypotheses for the selected reference face satisfied, `collidePost`
produces exactly the two accepted contacts of `clip_accept_two`. -/
theorem collidePost_two (a b : Body) (axis₀ : Axis) (sep₀ : ℝ) (nrm : Vec2)
    (hax : collideAxis a b = (axis₀, sep₀, nrm))
    (hD0 : (collideRefFace a b axis₀ nrm).frontNormal.dot
        (collideRefFace a b axis₀ nrm).incidentEdge.1.v -
        (collideRefFace a b axis₀ nrm).front ≤ 0)
    (hD1 : (collideRefFace a b axis₀ nrm).frontNormal.dot
        (collideRefFace a b axis₀ nrm).incidentEdge.2.v -
        (collideRefFace a b axis₀ nrm).front ≤ 0)
    (hsum : 0 < (collideRefFace a b axis₀ nrm).negSide + (collideRefFace a b axis₀ nrm).posSide)
    (h1 : (-(collideRefFace a b axis₀ nrm).sideNormal).dot
        (collideRefFace a b axis₀ nrm).incidentEdge.1.v -
        (collideRefFace a b axis₀ nrm).negSide < 0 ∨
      (-(collideRefFace a b axis₀ nrm).sideNormal).dot
        (collideRefFace a b axis₀ nrm).incidentEdge.2.v -
        (collideRefFace a b axis₀ nrm).negSide < 0)
    (h2 : (collideRefFace a b axis₀ nrm).sideNormal.dot
        (collideRefFace a b axis₀ nrm).incidentEdge.1.v -
        (collideRefFace a b axis₀ nrm).posSide < 0 ∨
      (collideRefFace a b axis₀ nrm).sideNormal.dot
        (collideRefFace a b axis₀ nrm).incidentEdge.2.v -
        (collideRefFace a b axis₀ nrm).posSide < 0) :
    ∃ c0 c1 : ContactInfo,
      collidePost a b = [some c0, some c1] ∧
      c0.separation ≤ 0 ∧ c1.separation ≤ 0 ∧ c0.normal = nrm ∧ c1.normal = nrm := by
  obtain ⟨q0, q1, r0, r1, c0, c1, hclip1, hclip2, hfm, hs0, hs1, hn0, hn1⟩ :=
    clip_accept_two (collideRefFace a b axis₀ nrm).incidentEdge.1
      (collideRefFace a b axis₀ nrm).incidentEdge.2
      (collideRefFace a b axis₀ nrm).sideNormal
      (collideRefFace a b axis₀ nrm).frontNormal
      (collideRefFace a b axis₀ nrm).negSide
      (collideRefFace a b axis₀ nrm).posSide
      (collideRefFace a b axis₀ nrm).front
      (collideRefFace a b axis₀ nrm).negEdge
      (collideRefFace a b axis₀ nrm).posEdge
      axis₀ nrm hD0 hD1 hsum h1 h2
  refine ⟨c0, c1, ?_, hs0, hs1, hn0, hn1⟩
  unfold collidePost
  dsimp only
  rw [hax]
  dsimp only
  rw [hclip1]
  dsimp only
  rw [hclip2]
  dsimp only
  exact hfm

/-- Overlapping axis-aligned equal-size boxes: `collide` produces exactly
two contacts, both with non-positive separation and a cardinal normal. -/
theorem collide_aligned_equal_pair (a b : Body)
    (ha : a.rotation = 0) (hb : b.rotation = 0) (hw : b.width = a.width)
    (hwx : 0 < a.width.x) (hwy : 0 < a.width.y)
    (hox : |b.position.x - a.position.x| < a.width.x)
    (hoy : |b.position.y - a.position.y| < a.width.y) :
    ∃ c0 c1 : ContactInfo,
      collide a b = [some c0, some c1] ∧
      c0.separation ≤ 0 ∧ c1.separation ≤ 0 ∧
      (c0.normal = Vec2.new 1 0 ∨ c0.normal = Vec2.new (-1) 0 ∨
        c0.normal = Vec2.new 0 1 ∨ c0.normal = Vec2.new 0 (-1)) ∧
      (c1.normal = Vec2.new 1 0 ∨ c1.normal = Vec2.new (-1) 0 ∨
        c1.normal = Vec2.new 0 1 ∨ c1.normal = Vec2.new 0 (-1)) := by
  have hdx := abs_lt.mp hox
  have hdy := abs_lt.mp hoy
  have hbwx : b.width.x = a.width.x := by rw [hw]
  have hbwy : b.width.y = a.width.y := by rw [hw]
  have hrotA : Mat2x2.newFromAngle a.rotation = ⟨Vec2.new 1 0, Vec2.new 0 1⟩ := by
    rw [ha, newFromAngle_zero]
  have hrotB : Mat2x2.newFromAngle b.rotation = ⟨Vec2.new 1 0, Vec2.new 0 1⟩ := by
    rw [hb, newFromAngle_zero]
  have hFa := collideFaceA_aligned a b ha hb
  have hFb := collideFaceB_aligned a b ha hb
  have hr1 : ¬((collideFaceA a b).x > 0 ∨ (collideFaceA a b).y > 0) := by
    rw [hFa]
    push_neg
    exact ⟨by dsimp only; linarith, by dsimp only; linarith⟩
  have hr2 : ¬((collideFaceB a b).x > 0 ∨ (collideFaceB a b).y > 0) := by
    rw [hFb]
    push_neg
    exact ⟨by dsimp only; linarith, by dsimp only; linarith⟩
  have hcol : collide a b = collidePost a b := by
    unfold collide
    dsimp only
    rw [if_neg hr1, if_neg hr2]
  rcases collideAxis_aligned_equal a b ha hb hw hwx hwy hox hoy with hax | hax
  · by_cases hdxp : b.position.x - a.position.x > 0
    · rw [if_pos hdxp] at hax
      have hinc : (collideRefFace a b Axis.faceAX (Vec2.new 1 0)).incidentEdge =
          computeIncidentEdge (b.width * (0.5 : ℝ)) b.position ⟨Vec2.new 1 0, Vec2.new 0 1⟩
            (Vec2.new 1 0) := by
        show computeIncidentEdge (b.width * (0.5 : ℝ)) b.position
            (Mat2x2.newFromAngle b.rotation) (Vec2.new 1 0) = _
        rw [hrotB]
      have hv0 : (collideRefFace a b Axis.faceAX (Vec2.new 1 0)).incidentEdge.1.v =
          Vec2.new (b.position.x + -(b.width.x * 0.5)) (b.position.y + b.width.y * 0.5) := by
        rw [hinc]
        exact (computeIncidentEdge_px _ _).1
      have hv1 : (collideRefFace a b Axis.faceAX (Vec2.new 1 0)).incidentEdge.2.v =
          Vec2.new (b.position.x + -(b.width.x * 0.5)) (b.position.y + -(b.width.y * 0.5)) := by
        rw [hinc]
        exact (computeIncidentEdge_px _ _).2
      have hfn : (collideRefFace a b Axis.faceAX (Vec2.new 1 0)).frontNormal =
          Vec2.new 1 0 := rfl
      have hfr : (collideRefFace a b Axis.faceAX (Vec2.new 1 0)).front =
          a.position.x + a.width.x * 0.5 := by
        show a.position.dot (Vec2.new 1 0) + (a.width * (0.5 : ℝ)).x = _
        simp [Vec2.dot_def, Vec2.new, Vec2.smul_def]
      have hsd : (collideRefFace a b Axis.faceAX (Vec2.new 1 0)).sideNormal =
          Vec2.new 0 1 := by
        show (Mat2x2.newFromAngle a.rotation).col2 = _
        rw [hrotA]
      have hns : (collideRefFace a b Axis.faceAX (Vec2.new 1 0)).negSide =
          -a.position.y + a.width.y * 0.5 := by
        show -(a.position.dot (Mat2x2.newFromAngle a.rotation).col2) + (a.width * (0.5 : ℝ)).y = _
        rw [hrotA]
        simp [Vec2.dot_def, Vec2.new, Vec2.smul_def]
      have hps : (collideRefFace a b Axis.faceAX (Vec2.new 1 0)).posSide =
          a.position.y + a.width.y * 0.5 := by
        show a.position.dot (Mat2x2.newFromAngle a.rotation).col2 + (a.width * (0.5 : ℝ)).y = _
        rw [hrotA]
        simp [Vec2.dot_def, Vec2.new, Vec2.smul_def]
      obtain ⟨c0, c1, hpost, hs0, hs1, hn0, hn1⟩ :=
        collidePost_two a b Axis.faceAX ((collideFaceA a b).x) (Vec2.new 1 0) hax
          (by rw [hfn, hv0, hfr]
              simp only [Vec2.dot_def, Vec2.new]
              linarith [hdx.2])
          (by rw [hfn, hv1, hfr]
              simp only [Vec2.dot_def, Vec2.new]
              linarith [hdx.2])
          (by rw [hns, hps]
              linarith)
          (by left
              rw [hsd, hv0, hns]
              simp [Vec2.neg_def, Vec2.dot_def, Vec2.new]
              linarith [hdy.1])
          (by right
              rw [hsd, hv1, hps]
              simp [Vec2.dot_def, Vec2.new]
              linarith [hdy.2])
      exact ⟨c0, c1, by rw [hcol]; exact hpost, hs0, hs1, Or.inl hn0, Or.inl hn1⟩
    · rw [if_neg hdxp] at hax
      have hinc : (collideRefFace a b Axis.faceAX (Vec2.new (-1) 0)).incidentEdge =
          computeIncidentEdge (b.width * (0.5 : ℝ)) b.position ⟨Vec2.new 1 0, Vec2.new 0 1⟩
            (Vec2.new (-1) 0) := by
        show computeIncidentEdge (b.width * (0.5 : ℝ)) b.position
            (Mat2x2.newFromAngle b.rotation) (Vec2.new (-1) 0) = _
        rw [hrotB]
      have hv0 : (collideRefFace a b Axis.faceAX (Vec2.new (-1) 0)).incidentEdge.1.v =
          Vec2.new (b.position.x + b.width.x * 0.5) (b.position.y + -(b.width.y * 0.5)) := by
        rw [hinc]
        exact (computeIncidentEdge_nx _ _).1
      have hv1 : (collideRefFace a b Axis.faceAX (Vec2.new (-1) 0)).incidentEdge.2.v =
          Vec2.new (b.position.x + b.width.x * 0.5) (b.position.y + b.width.y * 0.5) := by
        rw [hinc]
        exact (computeIncidentEdge_nx _ _).2
      have hfn : (collideRefFace a b Axis.faceAX (Vec2.new (-1) 0)).frontNormal =
          Vec2.new (-1) 0 := rfl
      have hfr : (collideRefFace a b Axis.faceAX (Vec2.new (-1) 0)).front =
          -a.position.x + a.width.x * 0.5 := by
        show a.position.dot (Vec2.new (-1) 0) + (a.width * (0.5 : ℝ)).x = _
        simp [Vec2.dot_def, Vec2.new, Vec2.smul_def]
      have hsd : (collideRefFace a b Axis.faceAX (Vec2.new (-1) 0)).sideNormal =
          Vec2.new 0 1 := by
        show (Mat2x2.newFromAngle a.rotation).col2 = _
        rw [hrotA]
      have hns : (collideRefFace a b Axis.faceAX (Vec2.new (-1) 0)).negSide =
          -a.position.y + a.width.y * 0.5 := by
        show -(a.position.dot (Mat2x2.newFromAngle a.rotation).col2) + (a.width * (0.5 : ℝ)).y = _
        rw [hrotA]
        simp [Vec2.dot_def, Vec2.new, Vec2.smul_def]
      have hps : (collideRefFace a b Axis.faceAX (Vec2.new (-1) 0)).posSide =
          a.position.y + a.width.y * 0.5 := by
        show a.position.dot (Mat2x2.newFromAngle a.rotation).col2 + (a.width * (0.5 : ℝ)).y = _
        rw [hrotA]
        simp [Vec2.dot_def, Vec2.new, Vec2.smul_def]
      obtain ⟨c0, c1, hpost, hs0, hs1, hn0, hn1⟩ :=
        collidePost_two a b Axis.faceAX ((collideFaceA a b).x) (Vec2.new (-1) 0) hax
          (by rw [hfn, hv0, hfr]
              simp [Vec2.dot_def, Vec2.new]
              linarith [hdx.1])
          (by rw [hfn, hv1, hfr]
              simp [Vec2.dot_def, Vec2.new]
              linarith [hdx.1])
          (by rw [hns, hps]
              linarith)
          (by right
              rw [hsd, hv1, hns]
              simp [Vec2.neg_def, Vec2.dot_def, Vec2.new]
              linarith [hdy.1])
          (by left
              rw [hsd, hv0, hps]
              simp [Vec2.dot_def, Vec2.new]
              linarith [hdy.2])
      exact ⟨c0, c1, by rw [hcol]; exact hpost, hs0, hs1, Or.inr (Or.inl hn0),
        Or.inr (Or.inl hn1)⟩
  · by_cases hdyp : b.position.y - a.position.y > 0
    · rw [if_pos hdyp] at hax
      have hinc : (collideRefFace a b Axis.faceAY (Vec2.new 0 1)).incidentEdge =
          computeIncidentEdge (b.width * (0.5 : ℝ)) b.position ⟨Vec2.new 1 0, Vec2.new 0 1⟩
            (Vec2.new 0 1) := by
        show computeIncidentEdge (b.width * (0.5 : ℝ)) b.position
            (Mat2x2.newFromAngle b.rotation) (Vec2.new 0 1) = _
        rw [hrotB]
      have hv0 : (collideRefFace a b Axis.faceAY (Vec2.new 0 1)).incidentEdge.1.v =
          Vec2.new (b.position.x + -(b.width.x * 0.5)) (b.position.y + -(b.width.y * 0.5)) := by
        rw [hinc]
        exact (computeIncidentEdge_py _ _).1
      have hv1 : (collideRefFace a b Axis.faceAY (Vec2.new 0 1)).incidentEdge.2.v =
          Vec2.new (b.position.x + b.width.x * 0.5) (b.position.y + -(b.width.y * 0.5)) := by
        rw [hinc]
        exact (computeIncidentEdge_py _ _).2
      have hfn : (collideRefFace a b Axis.faceAY (Vec2.new 0 1)).frontNormal =
          Vec2.new 0 1 := rfl
      have hfr : (collideRefFace a b Axis.faceAY (Vec2.new 0 1)).front =
          a.position.y + a.width.y * 0.5 := by
        show a.position.dot (Vec2.new 0 1) + (a.width * (0.5 : ℝ)).y = _
        simp [Vec2.dot_def, Vec2.new, Vec2.smul_def]
      have hsd : (collideRefFace a b Axis.faceAY (Vec2.new 0 1)).sideNormal =
          Vec2.new 1 0 := by
        show (Mat2x2.newFromAngle a.rotation).col1 = _
        rw [hrotA]
      have hns : (collideRefFace a b Axis.faceAY (Vec2.new 0 1)).negSide =
          -a.position.x + a.width.x * 0.5 := by
        show -(a.position.dot (Mat2x2.newFromAngle a.rotation).col1) + (a.width * (0.5 : ℝ)).x = _
        rw [hrotA]
        simp [Vec2.dot_def, Vec2.new, Vec2.smul_def]
      have hps : (collideRefFace a b Axis.faceAY (Vec2.new 0 1)).posSide =
          a.position.x + a.width.x * 0.5 := by
        show a.position.dot (Mat2x2.newFromAngle a.rotation).col1 + (a.width * (0.5 : ℝ)).x = _
        rw [hrotA]
        simp [Vec2.dot_def, Vec2.new, Vec2.smul_def]
      obtain ⟨c0, c1, hpost, hs0, hs1, hn0, hn1⟩ :=
        collidePost_two a b Axis.faceAY ((collideFaceA a b).y) (Vec2.new 0 1) hax
          (by rw [hfn, hv0, hfr]
              simp [Vec2.dot_def, Vec2.new]
              linarith [hdy.2])
          (by rw [hfn, hv1, hfr]
              simp [Vec2.dot_def, Vec2.new]
              linarith [hdy.2])
          (by rw [hns, hps]
              linarith)
          (by right
              rw [hsd, hv1, hns]
              simp [Vec2.neg_def, Vec2.dot_def, Vec2.new]
              linarith [hdx.1])
          (by left
              rw [hsd, hv0, hps]
              simp [Vec2.dot_def, Vec2.new]
              linarith [hdx.2])
      exact ⟨c0, c1, by rw [hcol]; exact hpost, hs0, hs1, Or.inr (Or.inr (Or.inl hn0)),
        Or.inr (Or.inr (Or.inl hn1))⟩
    · rw [if_neg hdyp] at hax
      have hinc : (collideRefFace a b Axis.faceAY (Vec2.new 0 (-1))).incidentEdge =
          computeIncidentEdge (b.width * (0.5 : ℝ)) b.position ⟨Vec2.new 1 0, Vec2.new 0 1⟩
            (Vec2.new 0 (-1)) := by
        show computeIncidentEdge (b.width * (0.5 : ℝ)) b.position
            (Mat2x2.newFromAngle b.rotation) (Vec2.new 0 (-1)) = _
        rw [hrotB]
      have hv0 : (collideRefFace a b Axis.faceAY (Vec2.new 0 (-1))).incidentEdge.1.v =
          Vec2.new (b.position.x + b.width.x * 0.5) (b.position.y + b.width.y * 0.5) := by
        rw [hinc]
        exact (computeIncidentEdge_ny _ _).1
      have hv1 : (collideRefFace a b Axis.faceAY (Vec2.new 0 (-1))).incidentEdge.2.v =
          Vec2.new (b.position.x + -(b.width.x * 0.5)) (b.position.y + b.width.y * 0.5) := by
        rw [hinc]
        exact (computeIncidentEdge_ny _ _).2
      have hfn : (collideRefFace a b Axis.faceAY (Vec2.new 0 (-1))).frontNormal =
          Vec2.new 0 (-1) := rfl
      have hfr : (collideRefFace a b Axis.faceAY (Vec2.new 0 (-1))).front =
          -a.position.y + a.width.y * 0.5 := by
        show a.position.dot (Vec2.new 0 (-1)) + (a.width * (0.5 : ℝ)).y = _
        simp [Vec2.dot_def, Vec2.new, Vec2.smul_def]
      have hsd : (collideRefFace a b Axis.faceAY (Vec2.new 0 (-1))).sideNormal =
          Vec2.new 1 0 := by
        show (Mat2x2.newFromAngle a.rotation).col1 = _
        rw [hrotA]
      have hns : (collideRefFace a b Axis.faceAY (Vec2.new 0 (-1))).negSide =
          -a.position.x + a.width.x * 0.5 := by
        show -(a.position.dot (Mat2x2.newFromAngle a.rotation).col1) + (a.width * (0.5 : ℝ)).x = _
        rw [hrotA]
        simp [Vec2.dot_def, Vec2.new, Vec2.smul_def]
      have hps : (collideRefFace a b Axis.faceAY (Vec2.new 0 (-1))).posSide =
          a.position.x + a.width.x * 0.5 := by
        show a.position.dot (Mat2x2.newFromAngle a.rotation).col1 + (a.width * (0.5 : ℝ)).x = _
        rw [hrotA]
        simp [Vec2.dot_def, Vec2.new, Vec2.smul_def]
      obtain ⟨c0, c1, hpost, hs0, hs1, hn0, hn1⟩ :=
        collidePost_two a b Axis.faceAY ((collideFaceA a b).y) (Vec2.new 0 (-1)) hax
          (by rw [hfn, hv0, hfr]
              simp [Vec2.dot_def, Vec2.new]
              linarith [hdy.1])
          (by rw [hfn, hv1, hfr]
              simp [Vec2.dot_def, Vec2.new]
              linarith [hdy.1])
          (by rw [hns, hps]
              linarith)
          (by left
              rw [hsd, hv0, hns]
              simp [Vec2.neg_def, Vec2.dot_def, Vec2.new]
              linarith [hdx.1])
          (by right
              rw [hsd, hv1, hps]
              simp [Vec2.dot_def, Vec2.new]
              linarith [hdx.2])
      exact ⟨c0, c1, by rw [hcol]; exact hpost, hs0, hs1, Or.inr (Or.inr (Or.inr hn0)),
        Or.inr (Or.inr (Or.inr hn1))⟩

/-- C4: for overlapping axis-aligned (rotation 0) box bodies of equal size
(with positive widths), `collide` returns exactly 2 contacts, each with
separation ≤ 0 and normal equal to one of the four cardinal unit vectors. -/
theorem collide_equal_axis_aligned_two_contacts (a b : Body)
    (ha : a.rotation = 0) (hb : b.rotation = 0) (hw : b.width = a.width)
    (hwx : 0 < a.width.x) (hwy : 0 < a.width.y)
    (hox : |b.position.x - a.position.x| < a.width.x)
    (hoy : |b.position.y - a.position.y| < a.width.y) :
    (collide a b).length = 2 ∧
    ∀ oc ∈ collide a b, ∃ ci : ContactInfo, oc = some ci ∧ ci.separation ≤ 0 ∧
      (ci.normal = Vec2.new 1 0 ∨ ci.normal = Vec2.new (-1) 0 ∨
        ci.normal = Vec2.new 0 1 ∨ ci.normal = Vec2.new 0 (-1)) := by
  obtain ⟨c0, c1, hlist, hs0, hs1, hn0, hn1⟩ :=
    collide_aligned_equal_pair a b ha hb hw hwx hwy hox hoy
  constructor
  · rw [hlist]
    rfl
  · intro oc hmem
    rw [hlist] at hmem
    rcases List.mem_cons.mp hmem with h | hmem2
    · exact ⟨c0, h, hs0, hn0⟩
    · rcases List.mem_cons.mp hmem2 with h | hmem3
      · exact ⟨c1, h, hs1, hn1⟩
      · exact absurd hmem3 (List.not_mem_nil oc)

/-- C4 (witness): the two 2×2 boxes at `(0,0)` and `(1/2, 1/2)` overlap and
produce exactly two contacts. -/
theorem collide_equal_axis_aligned_two_contacts_witness :
    (testBox (Vec2.new 0 0) (Vec2.new 2 2)).rotation = 0 ∧
    (testBox (Vec2.new (1/2) (1/2)) (Vec2.new 2 2)).rotation = 0 ∧
    (testBox (Vec2.new (1/2) (1/2)) (Vec2.new 2 2)).width =
      (testBox (Vec2.new 0 0) (Vec2.new 2 2)).width ∧
    (0 : ℝ) < (testBox (Vec2.new 0 0) (Vec2.new 2 2)).width.x ∧
    (0 : ℝ) < (testBox (Vec2.new 0 0) (Vec2.new 2 2)).width.y ∧
    |(testBox (Vec2.new (1/2) (1/2)) (Vec2.new 2 2)).position.x -
        (testBox (Vec2.new 0 0) (Vec2.new 2 2)).position.x| <
      (testBox (Vec2.new 0 0) (Vec2.new 2 2)).width.x ∧
    |(testBox (Vec2.new (1/2) (1/2)) (Vec2.new 2 2)).position.y -
        (testBox (Vec2.new 0 0) (Vec2.new 2 2)).position.y| <
      (testBox (Vec2.new 0 0) (Vec2.new 2 2)).width.y ∧
    (collide (testBox (Vec2.new 0 0) (Vec2.new 2 2))
      (testBox (Vec2.new (1/2) (1/2)) (Vec2.new 2 2))).length = 2 := by
  have h1 : (testBox (Vec2.new 0 0) (Vec2.new 2 2)).rotation = 0 := rfl
  have h2 : (testBox (Vec2.new (1/2) (1/2)) (Vec2.new 2 2)).rotation = 0 := rfl
  have h3 : (testBox (Vec2.new (1/2) (1/2)) (Vec2.new 2 2)).width =
      (testBox (Vec2.new 0 0) (Vec2.new 2 2)).width := rfl
  have h4 : (0 : ℝ) < (testBox (Vec2.new 0 0) (Vec2.new 2 2)).width.x := by
    show (0 : ℝ) < 2
    norm_num
  have h5 : (0 : ℝ) < (testBox (Vec2.new 0 0) (Vec2.new 2 2)).width.y := by
    show (0 : ℝ) < 2
    norm_num
  have h6 : |(testBox (Vec2.new (1/2) (1/2)) (Vec2.new 2 2)).position.x -
      (testBox (Vec2.new 0 0) (Vec2.new 2 2)).position.x| <
      (testBox (Vec2.new 0 0) (Vec2.new 2 2)).width.x := by
    show |(1/2 : ℝ) - 0| < 2
    rw [abs_of_pos (by norm_num)]
    norm_num
  have h7 : |(testBox (Vec2.new (1/2) (1/2)) (Vec2.new 2 2)).position.y -
      (testBox (Vec2.new 0 0) (Vec2.new 2 2)).position.y| <
      (testBox (Vec2.new 0 0) (Vec2.new 2 2)).width.y := by
    show |(1/2 : ℝ) - 0| < 2
    rw [abs_of_pos (by norm_num)]
    norm_num
  exact ⟨h1, h2, h3, h4, h5, h6, h7,
    (collide_equal_axis_aligned_two_contacts _ _ h1 h2 h3 h4 h5 h6 h7).1⟩

/-! ## C9: the step loop resets force/torque and preserves all other fields -/

theorem RustResult.bind_ok {α β : Type} (a : α) (f : α → RustResult β) :
    RustResult.bind (.ok a) f = f a := rfl

theorem RustResult.bind_ok_inv {α β : Type} {x : RustResult α} {f : α → RustResult β}
    {b : β} (h : RustResult.bind x f = .ok b) : ∃ a, x = .ok a ∧ f a = .ok b := by
  cases x with
  | ok a => exact ⟨a, rfl, h⟩
  | panicked m => exact RustResult.noConfusion h

theorem RustResult.ok_inj {α : Type} {a b : α}
    (h : (RustResult.ok a : RustResult α) = .ok b) : a = b := by
  injection h

/-- `foldlM` over `RustResult` preserves any invariant each step preserves. -/
theorem foldlM_preserve {α σ : Type} (P : σ → Prop) (f : σ → α → RustResult σ)
    (hf : ∀ s x s2, f s x = .ok s2 → P s → P s2) :
    ∀ (l : List α) (s s2 : σ), List.foldlM f s l = .ok s2 → P s → P s2 := by
  intro l
  induction l with
  | nil =>
    intro s s2 h hs
    rw [List.foldlM_nil] at h
    exact (RustResult.ok_inj h) ▸ hs
  | cons x xs ih =>
    intro s s2 h hs
    rw [List.foldlM_cons] at h
    obtain ⟨s1, hx, hrest⟩ := RustResult.bind_ok_inv h
    exact ih s1 s2 hrest (hf s x s1 hx hs)

theorem getD_set_ne (l : List Body) (i j : ℕ) (x : Body) (h : i ≠ j) :
    (l.set i x).getD j default = l.getD j default := by
  induction l generalizing i j with
  | nil => simp
  | cons a as ih =>
    cases i with
    | zero =>
      cases j with
      | zero => exact absurd rfl h
      | succ m => simp [List.set, List.getD]
    | succ n =>
      cases j with
      | zero => simp [List.set, List.getD]
      | succ m =>
        simp only [List.set, List.getD_cons_succ]
        exact ih n m (fun he => h (by rw [he]))

theorem map_frame_set (l : List Body) (i : ℕ) (x : Body)
    (hx : bodyFrame x = bodyFrame (l.getD i default)) :
    (l.set i x).map bodyFrame = l.map bodyFrame := by
  induction l generalizing i with
  | nil => simp
  | cons a as ih =>
    cases i with
    | zero =>
      have hfa : bodyFrame x = bodyFrame a := by simpa [List.getD] using hx
      simp [List.set, hfa]
    | succ n =>
      have hrec := ih n (by simpa [List.getD] using hx)
      simp [List.set, hrec]

theorem map_frame_set_two (l : List Body) (i j : ℕ) (x y : Body) (hij : i ≠ j)
    (hx : bodyFrame x = bodyFrame (l.getD i default))
    (hy : bodyFrame y = bodyFrame (l.getD j default)) :
    ((l.set i x).set j y).map bodyFrame = l.map bodyFrame := by
  rw [map_frame_set _ _ _ (by rw [hy, getD_set_ne l i j x hij]),
    map_frame_set _ _ _ hx]

/-- Folding the two borrowed bodies through a step function that only
rewrites velocities preserves their frames. -/
theorem foldl_two_bodies {β : Type} (f : (Body × Body × β) → Contact → (Body × Body × β))
    (hf : ∀ st c, bodyFrame (f st c).1 = bodyFrame st.1 ∧
      bodyFrame (f st c).2.1 = bodyFrame st.2.1) :
    ∀ (l : List Contact) (st : Body × Body × β),
      bodyFrame (l.foldl f st).1 = bodyFrame st.1 ∧
      bodyFrame (l.foldl f st).2.1 = bodyFrame st.2.1 := by
  intro l
  induction l with
  | nil => intro st; exact ⟨rfl, rfl⟩
  | cons c cs ih =>
    intro st
    rw [List.foldl_cons]
    refine ⟨?_, ?_⟩
    · rw [(ih (f st c)).1, (hf st c).1]
    · rw [(ih (f st c)).2, (hf st c).2]

theorem arbiterPreStepContact_frame (invDt : ℝ) (ctx : WorldContext)
    (st : Body × Body × List Contact) (c : Contact) :
    bodyFrame (arbiterPreStepContact invDt ctx st c).1 = bodyFrame st.1 ∧
    bodyFrame (arbiterPreStepContact invDt ctx st c).2.1 = bodyFrame st.2.1 := by
  cases c with
  | none => exact ⟨rfl, rfl⟩
  | some ci =>
    unfold arbiterPreStepContact
    dsimp only
    split
    · exact ⟨rfl, rfl⟩
    · exact ⟨rfl, rfl⟩

theorem arbiterApplyImpulseContact_frame (friction : ℝ) (ctx : WorldContext)
    (st : Body × Body × List Contact) (c : Contact) :
    bodyFrame (arbiterApplyImpulseContact friction ctx st c).1 = bodyFrame st.1 ∧
    bodyFrame (arbiterApplyImpulseContact friction ctx st c).2.1 = bodyFrame st.2.1 := by
  cases c with
  | none => exact ⟨rfl, rfl⟩
  | some ci =>
    exact ⟨rfl, rfl⟩

theorem arbiterPreStep_frame (bodies : List Body) (arb : Arbiter) (invDt : ℝ)
    (ctx : WorldContext) (bodies2 : List Body) (arb2 : Arbiter)
    (h : Arbiter.preStep bodies arb invDt ctx = .ok (bodies2, arb2)) :
    bodies2.map bodyFrame = bodies.map bodyFrame := by
  unfold Arbiter.preStep at h
  split at h
  · exact RustResult.noConfusion h
  · next hne =>
    have hfold := foldl_two_bodies (arbiterPreStepContact invDt ctx)
      (arbiterPreStepContact_frame invDt ctx) arb.contacts
      (bodies.getD arb.body1 default, bodies.getD arb.body2 default, [])
    dsimp only at h
    have h1 := congrArg Prod.fst (RustResult.ok_inj h)
    dsimp only at h1
    rw [← h1]
    exact map_frame_set_two _ _ _ _ _ hne hfold.1 hfold.2

theorem arbiterApplyImpulse_frame (bodies : List Body) (arb : Arbiter)
    (ctx : WorldContext) (bodies2 : List Body) (arb2 : Arbiter)
    (h : Arbiter.applyImpulse bodies arb ctx = .ok (bodies2, arb2)) :
    bodies2.map bodyFrame = bodies.map bodyFrame := by
  unfold Arbiter.applyImpulse at h
  split at h
  · exact RustResult.noConfusion h
  · next hne =>
    have hfold := foldl_two_bodies (arbiterApplyImpulseContact arb.friction ctx)
      (arbiterApplyImpulseContact_frame arb.friction ctx) arb.contacts
      (bodies.getD arb.body1 default, bodies.getD arb.body2 default, [])
    dsimp only at h
    have h1 := congrArg Prod.fst (RustResult.ok_inj h)
    dsimp only at h1
    rw [← h1]
    exact map_frame_set_two _ _ _ _ _ hne hfold.1 hfold.2

theorem jointPreStep_frame (bodies : List Body) (j : Joint) (ctx : WorldContext)
    (invDt : ℝ) (bodies2 : List Body) (j2 : Joint)
    (h : Joint.preStep bodies j ctx invDt = .ok (bodies2, j2)) :
    bodies2.map bodyFrame = bodies.map bodyFrame := by
  unfold Joint.preStep at h
  split at h
  · exact RustResult.noConfusion h
  · next hne =>
    obtain ⟨m, hinv, h⟩ := RustResult.bind_ok_inv h
    dsimp only at h
    split at h
    · have h1 := congrArg Prod.fst (RustResult.ok_inj h)
      dsimp only at h1
      rw [← h1]
      exact map_frame_set_two _ _ _ _ _ hne rfl rfl
    · have h1 := congrArg Prod.fst (RustResult.ok_inj h)
      dsimp only at h1
      rw [← h1]

theorem jointApplyImpulse_frame (bodies : List Body) (j : Joint)
    (bodies2 : List Body) (j2 : Joint)
    (h : Joint.applyImpulse bodies j = .ok (bodies2, j2)) :
    bodies2.map bodyFrame = bodies.map bodyFrame := by
  unfold Joint.applyImpulse at h
  split at h
  · exact RustResult.noConfusion h
  · next hne =>
    dsimp only at h
    have h1 := congrArg Prod.fst (RustResult.ok_inj h)
    dsimp only at h1
    rw [← h1]
    exact map_frame_set_two _ _ _ _ _ hne rfl rfl

theorem broadPhasePair_bodies (w : World) (i j : ℕ) (w2 : World)
    (h : broadPhasePair w i j = .ok w2) : w2.bodies = w.bodies := by
  unfold broadPhasePair at h
  try dsimp only at h
  split at h
  · exact (RustResult.ok_inj h) ▸ rfl
  · obtain ⟨arb, harb, h⟩ := RustResult.bind_ok_inv h
    try dsimp only at h
    split at h
    · split at h
      · exact (RustResult.ok_inj h) ▸ rfl
      · exact (RustResult.ok_inj h) ▸ rfl
    · exact (RustResult.ok_inj h) ▸ rfl

theorem broadPhase_bodies (w w1 : World) (h : w.broadPhase = .ok w1) :
    w1.bodies = w.bodies := by
  unfold World.broadPhase at h
  refine foldlM_preserve (fun w2 : World => w2.bodies = w.bodies) _ ?_
    (List.range w.bodies.length) w w1 h rfl
  intro wacc i w2 hstep hacc
  try dsimp only at hstep
  have hinner : w2.bodies = wacc.bodies := by
    refine foldlM_preserve (fun w3 : World => w3.bodies = wacc.bodies) _ ?_ _ _ _ hstep rfl
    intro w3 j w4 hp hb
    show w4.bodies = wacc.bodies
    have hb2 : w3.bodies = wacc.bodies := hb
    rw [broadPhasePair_bodies w3 i j w4 hp, hb2]
  show w2.bodies = w.bodies
  have hacc2 : wacc.bodies = w.bodies := hacc
  rw [hinner, hacc2]

theorem preStepArbiters_frames (bodies : List Body)
    (arbiters : List (ArbiterKey × Arbiter)) (invDt : ℝ) (ctx : WorldContext)
    (bodies2 : List Body) (arbs2 : List (ArbiterKey × Arbiter))
    (h : preStepArbiters bodies arbiters invDt ctx = .ok (bodies2, arbs2)) :
    bodies2.map bodyFrame = bodies.map bodyFrame := by
  unfold preStepArbiters at h
  have hp := foldlM_preserve
    (fun st : List Body × List (ArbiterKey × Arbiter) =>
      st.1.map bodyFrame = bodies.map bodyFrame)
    _
    (fun st kv st2 hstep hacc => by
      obtain ⟨res, hres, hok⟩ := RustResult.bind_ok_inv hstep
      have h1 := congrArg Prod.fst (RustResult.ok_inj hok)
      dsimp only at h1
      rw [← h1]
      rw [arbiterPreStep_frame st.1 kv.2 invDt ctx res.1 res.2 (by
        rw [← hres])]
      exact hacc)
    arbiters (bodies, []) (bodies2, arbs2) h rfl
  exact hp

theorem preStepJoints_frames (bodies : List Body) (joints : List Joint)
    (ctx : WorldContext) (invDt : ℝ) (bodies2 : List Body) (joints2 : List Joint)
    (h : preStepJoints bodies joints ctx invDt = .ok (bodies2, joints2)) :
    bodies2.map bodyFrame = bodies.map bodyFrame := by
  unfold preStepJoints at h
  have hp := foldlM_preserve
    (fun st : List Body × List Joint => st.1.map bodyFrame = bodies.map bodyFrame)
    _
    (fun st j st2 hstep hacc => by
      obtain ⟨res, hres, hok⟩ := RustResult.bind_ok_inv hstep
      have h1 := congrArg Prod.fst (RustResult.ok_inj hok)
      dsimp only at h1
      rw [← h1]
      rw [jointPreStep_frame st.1 j ctx invDt res.1 res.2 (by rw [← hres])]
      exact hacc)
    joints (bodies, []) (bodies2, joints2) h rfl
  exact hp

theorem solveIteration_frames (ctx : WorldContext)
    (st st2 : List Body × List (ArbiterKey × Arbiter) × List Joint)
    (h : solveIteration ctx st = .ok st2) :
    st2.1.map bodyFrame = st.1.map bodyFrame := by
  unfold solveIteration at h
  obtain ⟨afterArb, hArb, h⟩ := RustResult.bind_ok_inv h
  obtain ⟨afterJoint, hJoint, h⟩ := RustResult.bind_ok_inv h
  have hArbFrames : afterArb.1.map bodyFrame = st.1.map bodyFrame := by
    have := foldlM_preserve
      (fun acc : List Body × List (ArbiterKey × Arbiter) =>
        acc.1.map bodyFrame = st.1.map bodyFrame)
      _
      (fun acc kv acc2 hstep hacc => by
        obtain ⟨res, hres, hok⟩ := RustResult.bind_ok_inv hstep
        have h1 := congrArg Prod.fst (RustResult.ok_inj hok)
        dsimp only at h1
        rw [← h1]
        rw [arbiterApplyImpulse_frame acc.1 kv.2 ctx res.1 res.2 (by rw [← hres])]
        exact hacc)
      st.2.1 (st.1, []) afterArb hArb rfl
    exact this
  have hJointFrames : afterJoint.1.map bodyFrame = afterArb.1.map bodyFrame := by
    have := foldlM_preserve
      (fun acc : List Body × List Joint =>
        acc.1.map bodyFrame = afterArb.1.map bodyFrame)
      _
      (fun acc j acc2 hstep hacc => by
        obtain ⟨res, hres, hok⟩ := RustResult.bind_ok_inv hstep
        have h1 := congrArg Prod.fst (RustResult.ok_inj hok)
        dsimp only at h1
        rw [← h1]
        rw [jointApplyImpulse_frame acc.1 j res.1 res.2 (by rw [← hres])]
        exact hacc)
      st.2.2 (afterArb.1, []) afterJoint hJoint rfl
    exact this
  have h1 := congrArg Prod.fst (RustResult.ok_inj h)
  dsimp only at h1
  rw [← h1, hJointFrames, hArbFrames]

theorem solveLoop_frames (ctx : WorldContext) :
    ∀ (n : ℕ) (st st2 : List Body × List (ArbiterKey × Arbiter) × List Joint),
      solveLoop ctx n st = .ok st2 → st2.1.map bodyFrame = st.1.map bodyFrame := by
  intro n
  induction n with
  | zero =>
    intro st st2 h
    rw [(RustResult.ok_inj h)]
  | succ k ih =>
    intro st st2 h
    unfold solveLoop at h
    obtain ⟨st1, hit, hrest⟩ := RustResult.bind_ok_inv h
    rw [ih st1 st2 hrest, solveIteration_frames ctx st st1 hit]

/-- C9: whenever `World::step` returns, every body's force accumulator is
the zero vector and its torque accumulator is `0`, and the fields id, width,
friction, mass, inv_mass, moi, inv_moi, vertices and shape of every body are
exactly as before the call (only position, rotation, velocity,
angular_velocity, force and torque are written). -/
theorem step_resets_force_torque_frame (w : World) (dt : ℝ) (w2 : World)
    (h : w.step dt = .ok w2) :
    (∀ b ∈ w2.bodies, b.force = Vec2.default ∧ b.torque = 0) ∧
    w2.bodies.map bodyFrame = w.bodies.map bodyFrame := by
  unfold World.step at h
  try dsimp only at h
  obtain ⟨w1, hbp, h⟩ := RustResult.bind_ok_inv h
  try dsimp only at h
  obtain ⟨afterArbPre, hpa, h⟩ := RustResult.bind_ok_inv h
  try dsimp only at h
  obtain ⟨afterJointPre, hpj, h⟩ := RustResult.bind_ok_inv h
  try dsimp only at h
  obtain ⟨solved, hsl, h⟩ := RustResult.bind_ok_inv h
  try dsimp only at h
  have hw2 := RustResult.ok_inj h
  constructor
  · intro b hmem
    rw [← hw2] at hmem
    dsimp only at hmem
    obtain ⟨b0, _, hb0⟩ := List.mem_map.mp hmem
    rw [← hb0]
    exact ⟨rfl, rfl⟩
  · have h5 : w2.bodies = solved.1.map (integrateVelocities dt) := by
      rw [← hw2]
    rw [h5]
    have hIV : (solved.1.map (integrateVelocities dt)).map bodyFrame =
        solved.1.map bodyFrame := by
      rw [List.map_map]
      have hfe : bodyFrame ∘ integrateVelocities dt = bodyFrame :=
        funext fun b => rfl
      rw [hfe]
    rw [hIV]
    rw [solveLoop_frames w1.worldContext w1.iterations _ solved hsl]
    dsimp only
    rw [preStepJoints_frames afterArbPre.1 w1.joints w1.worldContext
      (World.stepInvDt dt) afterJointPre.1 afterJointPre.2 hpj]
    rw [preStepArbiters_frames (w1.bodies.map (integrateForces w1.gravity dt))
      w1.arbiters (World.stepInvDt dt) w1.worldContext afterArbPre.1 afterArbPre.2 hpa]
    have hIF : (w1.bodies.map (integrateForces w1.gravity dt)).map bodyFrame =
        w1.bodies.map bodyFrame := by
      rw [List.map_map]
      have hfe : bodyFrame ∘ integrateForces w1.gravity dt = bodyFrame :=
        funext fun b => by
          unfold integrateForces
          dsimp only [Function.comp]
          split <;> rfl
      rw [hfe]
    rw [hIF, broadPhase_bodies w w1 hbp]

/-- C9 (witness): stepping an empty world returns it unchanged, with the
(vacuous) force/torque reset and frame preservation. -/
theorem step_resets_force_torque_frame_witness :
    World.step (World.new (Vec2.new 0 (-10)) 0) 1 =
      RustResult.ok (World.new (Vec2.new 0 (-10)) 0) ∧
    (∀ b ∈ (World.new (Vec2.new 0 (-10)) 0).bodies,
      b.force = Vec2.default ∧ b.torque = 0) ∧
    (World.new (Vec2.new 0 (-10)) 0).bodies.map bodyFrame =
      (World.new (Vec2.new 0 (-10)) 0).bodies.map bodyFrame := by
  have hstep : World.step (World.new (Vec2.new 0 (-10)) 0) 1 =
      RustResult.ok (World.new (Vec2.new 0 (-10)) 0) := rfl
  exact ⟨hstep,
    (step_resets_force_torque_frame (World.new (Vec2.new 0 (-10)) 0) 1
      (World.new (Vec2.new 0 (-10)) 0) hstep).1,
    (step_resets_force_torque_frame (World.new (Vec2.new 0 (-10)) 0) 1
      (World.new (Vec2.new 0 (-10)) 0) hstep).2⟩

/-! ## C2: inv_dt and the sign of dt -/

/-- C2 (counterexample): at `dt = -1` — a nonzero `dt` — `World::step`
computes `inv_dt = 0`, not `1/dt = -1` as the claim states: the guard in
the source is `dt > 0.0`, not `dt != 0.0`. -/
theorem stepInvDt_negative_counterexample :
    World.stepInvDt (-1) = 0 ∧ (1 : ℝ) / (-1) ≠ 0 := by
  constructor
  · unfold World.stepInvDt
    rw [if_neg (by norm_num : ¬((-1 : ℝ) > 0))]
  · norm_num

/-- C2 (amended): `World::step` computes `inv_dt = 1/dt` when `dt > 0` and
`inv_dt = 0` otherwise, for `dt = 0` and every negative `dt` alike; a
negative `dt` is still a legal input — on a world holding one dynamic body
`step` returns `Ok` and integrates velocity by `(gravity + force*inv_mass)*dt`,
angular velocity by `inv_moi*torque*dt`, and position/rotation by the updated
rates times `dt`, so integration runs backward when `dt < 0`. -/
theorem step_invDt_and_integration (g : Vec2) (ctx : WorldContext) (body : Body) (dt : ℝ)
    (hm : body.invMass ≠ 0) :
    (0 < dt → World.stepInvDt dt = 1 / dt) ∧
    (dt ≤ 0 → World.stepInvDt dt = 0) ∧
    World.step ⟨g, 0, ctx, [body], [], []⟩ dt =
      RustResult.ok ⟨g, 0, ctx,
        [{ body with
            position := body.position + (body.velocity + (g + body.force * body.invMass) * dt) * dt
            rotation := body.rotation + (body.angularVelocity + body.invMoi * body.torque * dt) * dt
            velocity := body.velocity + (g + body.force * body.invMass) * dt
            angularVelocity := body.angularVelocity + body.invMoi * body.torque * dt
            force := Vec2.default
            torque := 0 }], [], []⟩ := by
  refine ⟨fun h => by unfold World.stepInvDt; rw [if_pos h],
          fun h => by unfold World.stepInvDt; rw [if_neg (not_lt.mpr h)], ?_⟩
  have hif : integrateForces g dt body =
      { body with
        velocity := body.velocity + (g + body.force * body.invMass) * dt
        angularVelocity := body.angularVelocity + body.invMoi * body.torque * dt } := by
    unfold integrateForces
    rw [if_neg hm]
  have hpure : ∀ {α : Type} (a : α), (pure a : RustResult α) = .ok a := fun _ => rfl
  have hbind : ∀ {α β : Type} (a : RustResult α) (f : α → RustResult β),
      a >>= f = RustResult.bind a f := fun _ _ => rfl
  have hr1 : List.range 1 = [0] := rfl
  have hlen : ([body]).length = 1 := rfl
  unfold World.step World.broadPhase preStepArbiters preStepJoints solveLoop
  simp only [hlen, hr1, List.foldlM_cons, List.foldlM_nil,
    List.drop_succ_cons, List.drop_nil, List.map_cons, List.map_nil,
    RustResult.bind, hpure, hbind, hif]
  rfl


/-- C2 (witness): the amended theorem applied at a backward step `dt = -1`
on a world with gravity `(0, -10)` and a single unit-mass box. -/
theorem step_invDt_and_integration_witness :
    (testBox (Vec2.new 0 0) (Vec2.new 2 2)).invMass ≠ 0 ∧
    ((0 < (-1 : ℝ) → World.stepInvDt (-1) = 1 / (-1)) ∧
     ((-1 : ℝ) ≤ 0 → World.stepInvDt (-1) = 0) ∧
     World.step ⟨Vec2.new 0 (-10), 0, ⟨true, true, true⟩,
         [testBox (Vec2.new 0 0) (Vec2.new 2 2)], [], []⟩ (-1 : ℝ) =
       RustResult.ok ⟨Vec2.new 0 (-10), 0, ⟨true, true, true⟩,
         [{ testBox (Vec2.new 0 0) (Vec2.new 2 2) with
             position := (testBox (Vec2.new 0 0) (Vec2.new 2 2)).position +
               ((testBox (Vec2.new 0 0) (Vec2.new 2 2)).velocity +
                 (Vec2.new 0 (-10) + (testBox (Vec2.new 0 0) (Vec2.new 2 2)).force *
                   (testBox (Vec2.new 0 0) (Vec2.new 2 2)).invMass) * (-1 : ℝ)) * (-1 : ℝ)
             rotation := (testBox (Vec2.new 0 0) (Vec2.new 2 2)).rotation +
               ((testBox (Vec2.new 0 0) (Vec2.new 2 2)).angularVelocity +
                 (testBox (Vec2.new 0 0) (Vec2.new 2 2)).invMoi *
                   (testBox (Vec2.new 0 0) (Vec2.new 2 2)).torque * (-1 : ℝ)) * (-1 : ℝ)
             velocity := (testBox (Vec2.new 0 0) (Vec2.new 2 2)).velocity +
               (Vec2.new 0 (-10) + (testBox (Vec2.new 0 0) (Vec2.new 2 2)).force *
                 (testBox (Vec2.new 0 0) (Vec2.new 2 2)).invMass) * (-1 : ℝ)
             angularVelocity := (testBox (Vec2.new 0 0) (Vec2.new 2 2)).angularVelocity +
               (testBox (Vec2.new 0 0) (Vec2.new 2 2)).invMoi *
                 (testBox (Vec2.new 0 0) (Vec2.new 2 2)).torque * (-1 : ℝ)
             force := Vec2.default
             torque := 0 }], [], []⟩) :=
  ⟨by norm_num [testBox, Body.new, f32Max],
   step_invDt_and_integration (Vec2.new 0 (-10)) ⟨true, true, true⟩
     (testBox (Vec2.new 0 0) (Vec2.new 2 2)) (-1 : ℝ)
     (by norm_num [testBox, Body.new, f32Max])⟩
